import Mathlib

/-!
Shallow embedding of the TrackBeats backend (src/app.py) and verification of
the frozen claims about its session-scoped cache-and-refresh core.

Conventions of the embedding:
* Python dict session records become the `Session` structure; the dynamically
  keyed per-activity fields (`{id}_data`, `{id}_streams`, `{id}_music_data`,
  `{id}_spotify_data`) become association lists keyed by the activity id.
* The redis store becomes a function `String → Option Session`; `redis.set`
  becomes `Store.set`.  Every handler also reports the list of store writes it
  performed, in order.
* External HTTP responses are passed in as explicit arguments (mock provider
  responses); the handler outputs count how many round-trips of each kind were
  issued, mirroring the exact call sites of the source.
* Python truthiness of `user_session.get(key)` is modelled precisely for
  list-valued fields (`truthyLookup`: a cached empty list is falsy, i.e. a
  cache miss), while dict-valued fields are truthy whenever present.
* Exceptions caught by the source's try/except blocks become `Except Unit` or
  explicit error constructors in the response types.
* Unix times are `Int`; where Python performs float division (`duration / 1000`
  and `expires_in / 2`) the embedding computes in `ℚ`, which is exact for the
  values involved.
-/

/-- One item of the Strava activity list; only its `type` tag is inspected by
the source (the `Run` filter). -/
structure StravaActivity where
  type : String
deriving DecidableEq

/-- Detail record for one activity (`{id}_data`): the source reads the parsed
ISO-8601 `start_date` (modelled directly as the parsed Unix value), the
`elapsed_time` in seconds, and whether the payload carries an `errors` field. -/
structure ActivityDetail where
  start_date_unix : Int
  elapsed_time : Int
  errors : Bool := false
deriving DecidableEq

/-- Velocity/latlng stream payload (`{id}_streams`); opaque to the core. -/
structure StreamsData where
  payload : String
deriving DecidableEq

/-- One raw Last.FM `recenttracks` entry as read by the source: `name`,
`artist.#text`, `album.#text`, `date.uts`, and the presence of the
now-playing marker field. -/
structure RawTrack where
  name : String
  artist_text : String
  album_text : String
  date_uts : Int
  nowplaying : Bool
deriving DecidableEq

/-- The `track` object of a Last.FM `track.getInfo` response; only its
`duration` (milliseconds; possibly absent) is read by the core. -/
structure TrackInfo where
  duration : Option Int
deriving DecidableEq

/-- An entry of `{id}_music_data`: the raw scrobble plus the enriched
`duration` attached by the `track.getInfo` loop. -/
structure MusicTrack where
  raw : RawTrack
  duration : Option Int
deriving DecidableEq

/-- Spotify image object: only `url` is read. -/
structure SpotifyImage where
  url : String
deriving DecidableEq

/-- Spotify artist reference inside an album object; only `name` is read. -/
structure SpotifyArtistRef where
  name : String
deriving DecidableEq

/-- Spotify album object: its artist list and image list are read. -/
structure SpotifyAlbum where
  artists : List SpotifyArtistRef
  images : List SpotifyImage
deriving DecidableEq

/-- Spotify track object (search result item, track detail, top track or
recommendation entry). -/
structure SpotifyTrack where
  id : String
  name : String
  preview_url : Option String
  album : SpotifyAlbum
deriving DecidableEq

/-- Spotify artist object (search result item). -/
structure SpotifyArtist where
  id : String
  name : String
  images : List SpotifyImage
  genres : List String
deriving DecidableEq

/-- The `track_relevant_data` dict assembled for each top track and each
recommended track. -/
structure TrackRelevantData where
  image : Option String
  preview_url : Option String
  track_name : String
  artist : String
deriving DecidableEq

/-- The `current_track.artist` sub-object of a cross-reference record. -/
structure CurrentTrackArtist where
  name : String
  image : String
  top_tracks : List TrackRelevantData
deriving DecidableEq

/-- The `current_track` sub-object of a cross-reference record. -/
structure CurrentTrack where
  name : String
  artist : CurrentTrackArtist
  preview : Option String
  genres : List String
deriving DecidableEq

/-- One element of `{id}_spotify_data` (`spotify_retrieved_data` in the
source). -/
structure SpotifyRecord where
  current_track : CurrentTrack
  recommended_tracks : List TrackRelevantData
deriving DecidableEq

/-- The app-level Spotify credential stored in the session
(`spotify_access_token`). -/
structure SpotifyAccessToken where
  token : String
  expiry_time : ℚ
deriving DecidableEq

/-- The server-side session record (the pickled dict stored in redis).  The
dynamically keyed per-activity fields are collected into association lists
keyed by activity id. -/
structure Session where
  user_id : Option Nat := none
  athlete_info : Option String := none
  access_token : Option String := none
  refresh_token : Option String := none
  access_token_expirytime : Option Int := none
  last_fm_username : Option String := none
  run_activities : Option (List StravaActivity) := none
  activity_data : List (String × ActivityDetail) := []
  activity_streams : List (String × StreamsData) := []
  music_data : List (String × List MusicTrack) := []
  spotify_data : List (String × List SpotifyRecord) := []
  spotify_access_token : Option SpotifyAccessToken := none
deriving DecidableEq

/-- The redis instance: a map from session id to the (deserialised) session. -/
def Store : Type := String → Option Session

/-- The `redis_instance.set(session_id, pickle.dumps(session))` operation. -/
def Store.set (st : Store) (k : String) (v : Session) : Store :=
  fun q => if q = k then some v else st q

/-- The store with no sessions. -/
def emptyStore : Store := fun _ => none

/-- Python `dict.get` on an association-list field. -/
def lookupField {α : Type} : List (String × α) → String → Option α
  | [], _ => none
  | (k, v) :: rest, key => if k = key then some v else lookupField rest key

/-- Python `dict[key] = value` on an association-list field. -/
def setField {α : Type} : List (String × α) → String → α → List (String × α)
  | [], key, v => [(key, v)]
  | (k, w) :: rest, key, v =>
      if k = key then (key, v) :: rest else (k, w) :: setField rest key v

/-- Python truthiness of `user_session.get(key)` for a list-valued field: a
missing key and a cached empty list are both falsy. -/
def truthyLookup {α : Type} (m : List (String × List α)) (key : String) :
    Option (List α) :=
  match lookupField m key with
  | some [] => none
  | some (x :: xs) => some (x :: xs)
  | none => none

/-- The empty session dict `{}`. -/
def emptySession : Session := {}

/-- Embedding of `get_session` (src/app.py lines 566-578): a falsy session id
(absent header or empty string) and an unknown id both yield the empty dict,
never an error. -/
def get_session (store : Store) (session_id : Option String) : Session :=
  match session_id with
  | none => emptySession
  | some sid =>
      if sid = "" then emptySession
      else
        match store sid with
        | some s => s
        | none => emptySession

/-- A successful Strava `refresh_token` grant response as read by
`check_access_token_status`. -/
structure RefreshResp where
  access_token : String
  refresh_token : String
  expires_at : Int
deriving DecidableEq

/-- The session update performed by a successful user-credential refresh. -/
def refreshedSession (s : Session) (r : RefreshResp) : Session :=
  { s with
      access_token := some r.access_token
      refresh_token := some r.refresh_token
      access_token_expirytime := some r.expires_at }

/-- Embedding of `check_access_token_status` (src/app.py lines 488-524).
`refreshResp` is the provider's answer to the refresh exchange (`none` models
a failed exchange).  Returns the updated store, the number of refresh
exchanges performed, and the list of store writes; `.error` models the raised
exceptions (no valid session, comparison with a missing expiry, or a failed
refresh).  Note the source's test is `time.time() > expiry_time`: strictly
greater, so no refresh happens when the current time equals the expiry. -/
def check_access_token_status (store : Store) (sid : String) (now : Int)
    (refreshResp : Option RefreshResp) :
    Except Unit (Store × Nat × List (String × Session)) :=
  let user_session := get_session store (some sid)
  match user_session.user_id with
  | none => .error ()
  | some _ =>
      match user_session.access_token_expirytime with
      | none => .error ()
      | some expiry_time =>
          if now > expiry_time then
            match refreshResp with
            | none => .error ()
            | some r =>
                let s' := refreshedSession user_session r
                .ok (Store.set store sid s', 1, [(sid, s')])
          else .ok (store, 0, [])

/-- The query parameters of one Strava activity-list round-trip as actually
sent on the wire. -/
structure PageRequest where
  per_page : Nat
  page : Nat
deriving DecidableEq

/-- Embedding of the `while True` pagination loop of `get_user_activity_data`
(src/app.py lines 133-155).  `provider` maps the round-trip index to the page
the mock returns; `request_payload` is the params dict built once before the
loop; `page_number` mirrors the local variable that the source increments
(`page_number += 1`) without ever writing it back into `request_payload`.
`fuel` bounds the number of round-trips; `none` means the loop did not
terminate within `fuel` rounds. -/
def strava_fetch_go (provider : Nat → List StravaActivity)
    (request_payload : PageRequest) :
    Nat → Nat → Nat → List PageRequest → List StravaActivity →
    Option (List PageRequest × List StravaActivity)
  | 0, _, _, _, _ => none
  | fuel + 1, round, page_number, requests, all_strava_activities =>
      let retrieved_data := provider round
      let requests' := requests ++ [request_payload]
      let all' := all_strava_activities ++ retrieved_data
      let page_number' := page_number + 1
      if retrieved_data.length ≠ 200 then some (requests', all')
      else strava_fetch_go provider request_payload fuel (round + 1)
        page_number' requests' all'

/-- The activity-list fetch of `get_user_activity_data`: build the payload
`{per_page: 200, page: page_number}` once with `page_number = 1`, then loop.
Returns the round-trip requests actually sent and the accumulated items
(before the `Run` filter). -/
def get_user_activity_fetch (provider : Nat → List StravaActivity)
    (fuel : Nat) : Option (List PageRequest × List StravaActivity) :=
  let page_number := 1
  let request_payload : PageRequest := { per_page := 200, page := page_number }
  strava_fetch_go provider request_payload fuel 0 page_number [] []

/-- The `Run` type filter applied after accumulation (src/app.py line 158). -/
def run_filter (l : List StravaActivity) : List StravaActivity :=
  l.filter (fun activity => activity.type = "Run")

/-- Response of the activity detail+streams endpoint. -/
inductive DetailResponse where
  | ok (activity_data : ActivityDetail) (activity_streams : StreamsData)
  | errorStatus
  | unauthorized
deriving DecidableEq

/-- Observable outcome of `get_activity_strava_data`: the HTTP response, the
upstream round-trip counts per derived field, the refresh exchanges, the
resulting store and the writes performed, in order. -/
structure DetailOut where
  response : DetailResponse
  dataCalls : Nat
  streamCalls : Nat
  refreshCalls : Nat
  store : Store
  writes : List (String × Session)

/-- The `{id}_data` cache step of `get_activity_strava_data` (src/app.py
lines 222-233): serve from the session if present, otherwise use the live
response (one round-trip) and write it into the session.  Returns the data,
the number of round-trips, and the updated session. -/
def cache_activity_data (sess : Session) (activity_id : String)
    (providerDetail : ActivityDetail) : ActivityDetail × Nat × Session :=
  match lookupField sess.activity_data activity_id with
  | some d => (d, 0, sess)
  | none =>
      (providerDetail, 1,
        { sess with
            activity_data := setField sess.activity_data activity_id
              providerDetail })

/-- The `{id}_streams` cache step of `get_activity_strava_data` (src/app.py
lines 238-246), analogous to the data step. -/
def cache_activity_streams (sess : Session) (activity_id : String)
    (providerStreams : StreamsData) : StreamsData × Nat × Session :=
  match lookupField sess.activity_streams activity_id with
  | some st => (st, 0, sess)
  | none =>
      (providerStreams, 1,
        { sess with
            activity_streams := setField sess.activity_streams activity_id
              providerStreams })

/-- Embedding of `get_activity_strava_data` (src/app.py lines 202-262).
`providerDetail` and `providerStreams` are the live Strava responses used on a
cache miss.  The store write on line 250 is unconditional; the `errors` check
on line 252 happens after that write, so an error payload is still cached and
only the response differs. -/
def get_activity_strava_data (store : Store) (sid : String)
    (activity_id : String) (now : Int) (refreshResp : Option RefreshResp)
    (providerDetail : ActivityDetail) (providerStreams : StreamsData) :
    DetailOut :=
  let user_session := get_session store (some sid)
  match user_session.user_id with
  | none =>
      { response := .unauthorized, dataCalls := 0, streamCalls := 0,
        refreshCalls := 0, store := store, writes := [] }
  | some _ =>
      match check_access_token_status store sid now refreshResp with
      | .error _ =>
          { response := .errorStatus, dataCalls := 0, streamCalls := 0,
            refreshCalls := 0, store := store, writes := [] }
      | .ok (store1, refreshCalls, w1) =>
          let user_session := get_session store1 (some sid)
          let step1 := cache_activity_data user_session activity_id
            providerDetail
          let step2 := cache_activity_streams step1.2.2 activity_id
            providerStreams
          let store2 := Store.set store1 sid step2.2.2
          { response :=
              if step1.1.errors then .errorStatus
              else .ok step1.1 step2.1,
            dataCalls := step1.2.1, streamCalls := step2.2.1,
            refreshCalls := refreshCalls, store := store2,
            writes := w1 ++ [(sid, step2.2.2)] }

/-- The `recenttracks.track` payload of a Last.FM `user.getrecenttracks`
response: the provider returns a bare object instead of a list when there is
exactly one match. -/
inductive RecentTracks where
  | single (t : RawTrack)
  | many (ts : List RawTrack)
deriving DecidableEq

/-- The normalisation on src/app.py lines 320-321: wrap a bare object into a
one-element list. -/
def normalizeRecent : RecentTracks → List RawTrack
  | .single t => [t]
  | .many ts => ts

/-- The now-playing filter on src/app.py line 323: drop entries carrying the
`@attr` marker. -/
def drop_nowplaying (l : List RawTrack) : List RawTrack :=
  l.filter (fun music => !music.nowplaying)

/-- The `track.getInfo` enrichment loop (src/app.py lines 327-340).  The
oracle maps each track to the `track` object of its `track.getInfo` response
(`none` models a response without a `track` object, on which
`.get('track').get('duration')` raises).  Returns the enriched list together
with the number of `track.getInfo` round-trips issued. -/
def enrich (oracle : RawTrack → Option TrackInfo) :
    List RawTrack → Except Unit (List MusicTrack) × Nat
  | [] => (.ok [], 0)
  | t :: rest =>
      match oracle t with
      | none => (.error (), 1)
      | some info =>
          match enrich oracle rest with
          | (.error e, n) => (.error e, n + 1)
          | (.ok tail, n) => (.ok ({ raw := t, duration := info.duration } :: tail), n + 1)

/-- The buffer-zone post-filter (src/app.py line 344): keep a track unless
`(int(duration) / 1000) + int(date.uts) < start_time_unix`.  A `None`
duration makes `int(None)` raise, modelled as `.error`.  The division is
Python float division, exact here, modelled in `ℚ`. -/
def buffer_filter (start_time_unix : Int) :
    List MusicTrack → Except Unit (List MusicTrack)
  | [] => .ok []
  | music :: rest =>
      match music.duration with
      | none => .error ()
      | some dur =>
          match buffer_filter start_time_unix rest with
          | .error e => .error e
          | .ok tail =>
              if ((dur : ℚ) / 1000) + (music.raw.date_uts : ℚ) <
                  (start_time_unix : ℚ) then .ok tail
              else .ok (music :: tail)

/-- Response of the activity music-correlation endpoint. -/
inductive MusicResponse where
  | ok (music_data : List MusicTrack) (startTime endTime : Int)
  | errorStatus
  | unauthorized
deriving DecidableEq

/-- Observable outcome of `get_activity_music_data`: response, per-provider
round-trip counts, the `from`/`to` window of the `user.getrecenttracks` query
when one was issued, the resulting store and the writes performed. -/
structure MusicOut where
  response : MusicResponse
  detailCalls : Nat
  recentCalls : Nat
  infoCalls : Nat
  refreshCalls : Nat
  recentQuery : Option (Int × Int)
  store : Store
  writes : List (String × Session)

/-- The `{id}_data` step of `get_activity_music_data` (src/app.py lines
276-288): serve the activity detail from the session if present (no token
check, no round-trip); otherwise run the token check and fetch the detail
live — without writing it back.  Returns the detail, the detail round-trips,
the refresh exchanges, the resulting store and the store writes (those of a
successful token refresh). -/
def music_detail_step (store : Store) (sid : String) (activity_id : String)
    (now : Int) (refreshResp : Option RefreshResp)
    (providerDetail : ActivityDetail) :
    Except Unit (ActivityDetail × Nat × Nat × Store × List (String × Session)) :=
  match lookupField (get_session store (some sid)).activity_data activity_id with
  | some d => .ok (d, 0, 0, store, [])
  | none =>
      match check_access_token_status store sid now refreshResp with
      | .error _ => .error ()
      | .ok (store1, rc, w1) => .ok (providerDetail, 1, rc, store1, w1)

/-- Embedding of `get_activity_music_data` (src/app.py lines 266-360).
On an `{id}_data` cache miss the activity detail is fetched live (after the
token check) but — unlike in `get_activity_strava_data` — never written back
into the session.  The `{id}_music_data` branch queries Last.FM over
`[start - 300, end]`, normalises, drops the now-playing entry, enriches with
durations, applies the buffer post-filter, and only then caches and persists. -/
def get_activity_music_data (store : Store) (sid : String)
    (activity_id : String) (now : Int) (refreshResp : Option RefreshResp)
    (providerDetail : ActivityDetail) (recentResp : RecentTracks)
    (oracle : RawTrack → Option TrackInfo) : MusicOut :=
  let user_session := get_session store (some sid)
  match user_session.user_id with
  | none =>
      { response := .unauthorized, detailCalls := 0, recentCalls := 0,
        infoCalls := 0, refreshCalls := 0, recentQuery := none,
        store := store, writes := [] }
  | some _ =>
      match music_detail_step store sid activity_id now refreshResp
          providerDetail with
      | .error _ =>
          { response := .errorStatus, detailCalls := 0, recentCalls := 0,
            infoCalls := 0, refreshCalls := 0, recentQuery := none,
            store := store, writes := [] }
      | .ok (activity_response_data, detailCalls, refreshCalls, store1, w1) =>
          let user_session := get_session store1 (some sid)
          let start_time_unix := activity_response_data.start_date_unix
          let end_time_unix := start_time_unix + activity_response_data.elapsed_time
          match truthyLookup user_session.music_data activity_id with
          | some music_list =>
              { response := .ok music_list start_time_unix end_time_unix,
                detailCalls := detailCalls, recentCalls := 0, infoCalls := 0,
                refreshCalls := refreshCalls, recentQuery := none,
                store := store1, writes := w1 }
          | none =>
              let buffered_start_time_unix := start_time_unix - 5 * 60
              let music_list0 := drop_nowplaying (normalizeRecent recentResp)
              match enrich oracle music_list0 with
              | (.error _, n) =>
                  { response := .errorStatus, detailCalls := detailCalls,
                    recentCalls := 1, infoCalls := n,
                    refreshCalls := refreshCalls,
                    recentQuery := some (buffered_start_time_unix, end_time_unix),
                    store := store1, writes := w1 }
              | (.ok enriched, n) =>
                  match buffer_filter start_time_unix enriched with
                  | .error _ =>
                      { response := .errorStatus, detailCalls := detailCalls,
                        recentCalls := 1, infoCalls := n,
                        refreshCalls := refreshCalls,
                        recentQuery := some (buffered_start_time_unix, end_time_unix),
                        store := store1, writes := w1 }
                  | .ok music_list =>
                      let s' :=
                        { user_session with
                            music_data := setField user_session.music_data
                              activity_id music_list }
                      let store2 := Store.set store1 sid s'
                      { response := .ok music_list start_time_unix end_time_unix,
                        detailCalls := detailCalls, recentCalls := 1,
                        infoCalls := n, refreshCalls := refreshCalls,
                        recentQuery := some (buffered_start_time_unix, end_time_unix),
                        store := store2, writes := w1 ++ [(sid, s')] }

/-- The `track_relevant_data` dict built for one top track (src/app.py lines
413-422): the image lookup `album.images[0].url` sits in a try/except that
degrades to `None`. -/
def mk_top_track (artist_name : String) (top_track : SpotifyTrack) :
    TrackRelevantData :=
  { image := top_track.album.images.head?.map SpotifyImage.url
    preview_url := top_track.preview_url
    track_name := top_track.name
    artist := artist_name }

/-- The top-tracks assembly loop (src/app.py lines 410-423): keep every top
track whose name differs from the current track's name. -/
def build_top_tracks (current_name artist_name : String) :
    List SpotifyTrack → List TrackRelevantData
  | [] => []
  | top_track :: rest =>
      if top_track.name ≠ current_name then
        mk_top_track artist_name top_track ::
          build_top_tracks current_name artist_name rest
      else build_top_tracks current_name artist_name rest

/-- The `track_relevant_data` dict built for one recommended track
(src/app.py lines 437-446); again the image lookup degrades to `None`. -/
def mk_rec_track (primary_name : String) (recommended_track : SpotifyTrack) :
    TrackRelevantData :=
  { image := recommended_track.album.images.head?.map SpotifyImage.url
    preview_url := recommended_track.preview_url
    track_name := recommended_track.name
    artist := primary_name }

/-- The recommendation filter loop (src/app.py lines 434-446): for each
candidate read `album.artists[0].name` — *not* guarded by a try/except, so an
empty artist list raises (modelled as `.error`) — and keep the candidate iff
that name differs from the seed artist's name. -/
def build_recommended (seed_name : String) :
    List SpotifyTrack → Except Unit (List TrackRelevantData)
  | [] => .ok []
  | recommended_track :: rest =>
      match recommended_track.album.artists.head? with
      | none => .error ()
      | some primary =>
          if primary.name ≠ seed_name then
            match build_recommended seed_name rest with
            | .error e => .error e
            | .ok tail => .ok (mk_rec_track primary.name recommended_track :: tail)
          else build_recommended seed_name rest

/-- The params dict of the `recommendations` request (src/app.py lines
426-430). -/
structure RecRequest where
  seed_artist : String
  seed_tracks : String
  limit : Nat
deriving DecidableEq

/-- The Spotify responses consumed while processing one track of the
music list: search-by-track items, search-by-artist items, the track detail,
the artist's top tracks, and the recommendation candidates. -/
structure TrackInputs where
  search_track_items : List SpotifyTrack
  search_artist_items : List SpotifyArtist
  track_detail : SpotifyTrack
  top_tracks : List SpotifyTrack
  recommendations : List SpotifyTrack
deriving DecidableEq

/-- Result of processing one track: the assembled cross-reference record and
the recommendation request that was sent for it. -/
structure ProcessOut where
  record : SpotifyRecord
  rec_request : RecRequest
deriving DecidableEq

/-- Embedding of the body of the per-track loop of `get_music_artist_data`
(src/app.py lines 387-467).  Returns the outcome together with the number of
Spotify round-trips issued before returning: indexing `[0]` into an empty
search result raises after 1 (track search) or 2 (artist search) calls; all
five calls have been made by the time the recommendation filter or the
unguarded `artist_data.images[0]` access in the record assembly raises. -/
def process_track (inp : TrackInputs) : Except Unit ProcessOut × Nat :=
  match inp.search_track_items.head? with
  | none => (.error (), 1)
  | some searched_track =>
      match inp.search_artist_items.head? with
      | none => (.error (), 2)
      | some artist_data =>
          let music_id := searched_track.id
          let music_data := inp.track_detail
          let top_tracks_list :=
            build_top_tracks music_data.name artist_data.name inp.top_tracks
          let recommended_music_params : RecRequest :=
            { seed_artist := artist_data.id, seed_tracks := music_id,
              limit := 15 }
          match build_recommended artist_data.name inp.recommendations with
          | .error _ => (.error (), 5)
          | .ok recommended_tracks_list0 =>
              let recommended_tracks_list :=
                if recommended_tracks_list0.length > 10 then
                  recommended_tracks_list0.take 10
                else recommended_tracks_list0
              match artist_data.images.head? with
              | none => (.error (), 5)
              | some first_image =>
                  (.ok
                    { record :=
                        { current_track :=
                            { name := music_data.name
                              artist :=
                                { name := artist_data.name
                                  image := first_image.url
                                  top_tracks := top_tracks_list }
                              preview := music_data.preview_url
                              genres := artist_data.genres }
                          recommended_tracks := recommended_tracks_list }
                      rec_request := recommended_music_params }, 5)

/-- Observable outcome of the per-track loop: the accumulated result list,
the final session and store, the writes performed (one per successfully
processed track), the Spotify round-trips, and whether an exception aborted
the loop. -/
structure SpotifyLoopOut where
  spotify_data_list : List SpotifyRecord
  session : Session
  store : Store
  writes : List (String × Session)
  calls : Nat
  error : Bool

/-- The per-track loop of `get_music_artist_data` (src/app.py lines 387-473):
after each successfully processed track the record is appended to the result
list, the session field `{id}_spotify_data` is overwritten with the whole
list so far, and the full session is persisted, before the next track is
touched.  A failure aborts the loop, leaving the writes already performed in
place. -/
def spotify_track_loop (sid activity_id : String)
    (oracle : MusicTrack → TrackInputs) :
    List MusicTrack → Session → Store → List SpotifyRecord → SpotifyLoopOut
  | [], sess, st, acc =>
      { spotify_data_list := acc, session := sess, store := st,
        writes := [], calls := 0, error := false }
  | track :: rest, sess, st, acc =>
      match process_track (oracle track) with
      | (.error _, n) =>
          { spotify_data_list := acc, session := sess, store := st,
            writes := [], calls := n, error := true }
      | (.ok out, n) =>
          let acc' := acc ++ [out.record]
          let sess' :=
            { sess with
                spotify_data := setField sess.spotify_data activity_id acc' }
          let st' := Store.set st sid sess'
          let restOut := spotify_track_loop sid activity_id oracle rest sess' st' acc'
          { restOut with
              writes := (sid, sess') :: restOut.writes
              calls := n + restOut.calls }

/-- Response of the catalog cross-reference endpoint. -/
inductive SpotifyResponse where
  | ok (l : List SpotifyRecord)
  | errorStatus
  | unauthorized
deriving DecidableEq

/-- Observable outcome of `get_music_artist_data`: the response, the Spotify
round-trips issued, the listening-history round-trips issued (the handler
contains no Last.FM request, so this is 0 on every path by construction),
the resulting store and the writes performed. -/
structure SpotifyHandlerOut where
  response : SpotifyResponse
  spotifyCalls : Nat
  lastfmCalls : Nat
  store : Store
  writes : List (String × Session)

/-- Embedding of `get_music_artist_data` (src/app.py lines 364-483).  The
`{id}_spotify_data` check uses Python truthiness (an empty cached list is a
miss).  When `{id}_music_data` is absent, `user_session.get` yields `None`
and the `for track in music_list` line raises `TypeError`, caught by the
surrounding try/except: the handler answers `{error_status: true}` without
issuing any provider call or writing any session field. -/
def get_music_artist_data (store : Store) (sid activity_id : String)
    (oracle : MusicTrack → TrackInputs) : SpotifyHandlerOut :=
  let user_session := get_session store (some sid)
  match user_session.user_id with
  | none =>
      { response := .unauthorized, spotifyCalls := 0, lastfmCalls := 0,
        store := store, writes := [] }
  | some _ =>
      match truthyLookup user_session.spotify_data activity_id with
      | some cached =>
          { response := .ok cached, spotifyCalls := 0, lastfmCalls := 0,
            store := store, writes := [] }
      | none =>
          match lookupField user_session.music_data activity_id with
          | none =>
              { response := .errorStatus, spotifyCalls := 0, lastfmCalls := 0,
                store := store, writes := [] }
          | some music_list =>
              let out := spotify_track_loop sid activity_id oracle music_list
                user_session store []
              if out.error then
                { response := .errorStatus, spotifyCalls := out.calls,
                  lastfmCalls := 0, store := out.store, writes := out.writes }
              else
                { response := .ok out.spotify_data_list,
                  spotifyCalls := out.calls, lastfmCalls := 0,
                  store := out.store, writes := out.writes }

/-- A Spotify client-credentials grant response: the token and the
provider-declared lifetime `expires_in` in seconds. -/
structure SpotifyGrant where
  access_token : String
  expires_in : ℚ
deriving DecidableEq

/-- Observable outcome of `refresh_spotify_access_token`: the token returned
to the caller, the (possibly mutated) session, the resulting store, the
number of client-credentials exchanges performed, and the writes. -/
structure SpotifyTokenOut where
  token : String
  session : Session
  store : Store
  exchanges : Nat
  writes : List (String × Session)

/-- Embedding of `refresh_spotify_access_token` (src/app.py lines 538-562).
A stored token is reused iff `time.time() < expiry_time` strictly; otherwise
a new client-credentials exchange is performed and the stored `expiry_time`
is set to the grant time plus *half* the provider-declared lifetime
(`expires_in / 2`, Python float division, modelled in `ℚ`). -/
def refresh_spotify_access_token (store : Store) (sid : String)
    (user_session : Session) (now : ℚ) (grant : SpotifyGrant) :
    SpotifyTokenOut :=
  match user_session.spotify_access_token with
  | some tok =>
      if now < tok.expiry_time then
        { token := tok.token, session := user_session, store := store,
          exchanges := 0, writes := [] }
      else
        let expiry_time := now + grant.expires_in / 2
        let s' :=
          { user_session with
              spotify_access_token :=
                some { token := grant.access_token, expiry_time := expiry_time } }
        { token := grant.access_token, session := s',
          store := Store.set store sid s', exchanges := 1,
          writes := [(sid, s')] }
  | none =>
      let expiry_time := now + grant.expires_in / 2
      let s' :=
        { user_session with
            spotify_access_token :=
              some { token := grant.access_token, expiry_time := expiry_time } }
      { token := grant.access_token, session := s',
        store := Store.set store sid s', exchanges := 1,
        writes := [(sid, s')] }

/-- Observable outcome of `retrieve_lastfm_user`: the `{error: bool}` body,
the resulting store and the writes performed. -/
structure LastfmOut where
  error : Bool
  store : Store
  writes : List (String × Session)

/-- Embedding of `retrieve_lastfm_user` (src/app.py lines 590-622).  The
handler performs no authentication check: it loads whatever session the
header names (possibly the empty record), and on a successful upstream
`user.getinfo` stores the record with `last_fm_username` set under the given
id.  A `None` session id makes `redis_instance.set` raise, caught by the
surrounding try/except (error response, no write). -/
def retrieve_lastfm_user (store : Store) (session_id : Option String)
    (username : String) (upstream_error : Bool) : LastfmOut :=
  let user_session := get_session store session_id
  if upstream_error then { error := true, store := store, writes := [] }
  else
    let s' := { user_session with last_fm_username := some username }
    match session_id with
    | none => { error := true, store := store, writes := [] }
    | some sid =>
        { error := false, store := Store.set store sid s',
          writes := [(sid, s')] }

/-- A fitness-provider mock returning pages of sizes 200, 200, 150 on
successive round-trips (the spec's pagination example). -/
def c1_pages : Nat → List StravaActivity
  | 0 => List.replicate 200 { type := "Run" }
  | 1 => List.replicate 200 { type := "Run" }
  | _ => List.replicate 150 { type := "Run" }

set_option maxRecDepth 8192 in
/-- C1: evaluation of the activity-list fetch at the spec's mock
([200,200,150]).  The loop does stop after the first short page (3 requests,
550 accumulated items), but every round-trip requests page 1: the params
dict is built once before the loop with `page: 1`, and `page_number += 1`
only rebinds the local variable, never the dict — so the requested page
number is *not* incremented. -/
theorem C1_pagination_code_eval :
    (get_user_activity_fetch c1_pages 10).map
        (fun r => (r.1.map PageRequest.page, r.1.length, r.2.length)) =
      some ([1, 1, 1], 3, 550) := by
  decide

/-- A session whose user access token expires exactly at time 100. -/
def c2_session : Session :=
  { user_id := some 1, access_token := some "a", refresh_token := some "r",
    access_token_expirytime := some 100 }

/-- A one-session store for the C2 counterexample. -/
def c2_store : Store := Store.set emptyStore "s1" c2_session

/-- A successful refresh grant used in the C2 scenarios. -/
def c2_refresh : RefreshResp :=
  { access_token := "a2", refresh_token := "r2", expires_at := 500 }

/-- C2 counterexample: at `now = access_token_expirytime` (both 100) the code
performs zero refresh exchanges, although `now >= expirytime` holds — the
source's condition is the strict `time.time() > expiry_time`, so the claimed
boundary `now >= expirytime` is wrong. -/
theorem C2_refresh_at_equal_expiry_counterexample :
    (100 : Int) ≥ 100 ∧
    check_access_token_status c2_store "s1" 100 (some c2_refresh) =
      .ok (c2_store, 0, []) := by
  exact ⟨le_refl 100, rfl⟩

/-- C2 (amended): the user access token is treated as valid iff
`now ≤ access_token_expirytime`; `check_access_token_status` performs a
refresh exchange exactly when `now > access_token_expirytime` (on success
overwriting the credential triple and persisting it; on a failed exchange
raising), and performs zero refresh exchanges and no store write otherwise. -/
theorem C2_user_credential_refresh (store : Store) (k : String) (s : Session)
    (uid : Nat) (now e : Int) (r : RefreshResp)
    (hs : get_session store (some k) = s)
    (hu : s.user_id = some uid)
    (he : s.access_token_expirytime = some e) :
    (now ≤ e →
      check_access_token_status store k now (some r) = .ok (store, 0, [])) ∧
    (e < now →
      check_access_token_status store k now (some r) =
        .ok (Store.set store k (refreshedSession s r), 1,
          [(k, refreshedSession s r)])) ∧
    (e < now → check_access_token_status store k now none = .error ()) := by
  refine ⟨?_, ?_, ?_⟩ <;> intro h <;>
    simp only [check_access_token_status, hs, hu, he, gt_iff_lt]
  · rw [if_neg (not_lt.mpr h)]
  · rw [if_pos h]
  · rw [if_pos h]

/-- A session whose token expires at 99 (one second before the check at 100). -/
def c2w_session1 : Session :=
  { user_id := some 1, access_token_expirytime := some 99 }

/-- A session whose token expires at 3700 (one hour after the check at 100). -/
def c2w_session2 : Session :=
  { user_id := some 1, access_token_expirytime := some 3700 }

/-- A two-session store for the C2 witness. -/
def c2w_store : Store :=
  Store.set (Store.set emptyStore "w1" c2w_session1) "w2" c2w_session2

/-- C2 witness: a credential with `expirytime = now - 1` triggers exactly one
refresh exchange, and a credential with `expirytime = now + 3600` triggers
zero. -/
theorem C2_user_credential_refresh_witness :
    check_access_token_status c2w_store "w1" 100 (some c2_refresh) =
      .ok (Store.set c2w_store "w1" (refreshedSession c2w_session1 c2_refresh),
        1, [("w1", refreshedSession c2w_session1 c2_refresh)]) ∧
    check_access_token_status c2w_store "w2" 100 (some c2_refresh) =
      .ok (c2w_store, 0, []) := by
  constructor
  · exact (C2_user_credential_refresh c2w_store "w1" c2w_session1 1 100 99
      c2_refresh rfl rfl rfl).2.1 (by decide)
  · exact (C2_user_credential_refresh c2w_store "w2" c2w_session2 1 100 3700
      c2_refresh rfl rfl rfl).1 (by decide)

/-- Writing a field and reading it back yields the written value. -/
theorem lookup_setField {α : Type} (m : List (String × α)) (key : String)
    (v : α) : lookupField (setField m key v) key = some v := by
  induction m with
  | nil => simp [setField, lookupField]
  | cons hd tl ih =>
      obtain ⟨k, w⟩ := hd
      by_cases h : k = key
      · simp [setField, h, lookupField]
      · simp [setField, h, lookupField, ih]

/-- Reading another key is unaffected by a field write. -/
theorem lookup_setField_ne {α : Type} (m : List (String × α)) (key q : String)
    (v : α) (h : q ≠ key) :
    lookupField (setField m key v) q = lookupField m q := by
  induction m with
  | nil => simp [setField, lookupField, Ne.symm h]
  | cons hd tl ih =>
      obtain ⟨k, w⟩ := hd
      by_cases hk : k = key
      · subst hk
        simp [setField, lookupField, Ne.symm h]
      · simp [setField, hk, lookupField, ih]

/-- Overwriting a field twice keeps only the last value. -/
theorem setField_setField {α : Type} (m : List (String × α)) (key : String)
    (v w : α) : setField (setField m key v) key w = setField m key w := by
  induction m with
  | nil => simp [setField]
  | cons hd tl ih =>
      obtain ⟨k, u⟩ := hd
      by_cases h : k = key
      · simp [setField, h]
      · simp [setField, h, ih]

/-- An authenticated session can only have been loaded from a real store
entry under a non-empty id. -/
theorem session_of_auth {store : Store} {k : String} {s : Session} {uid : Nat}
    (hs : get_session store (some k) = s) (hu : s.user_id = some uid) :
    k ≠ "" ∧ store k = some s := by
  by_cases hk : k = ""
  · exfalso
    rw [get_session, if_pos hk] at hs
    rw [← hs] at hu
    exact Option.noConfusion hu
  · refine ⟨hk, ?_⟩
    rw [get_session, if_neg hk] at hs
    cases hst : store k with
    | none =>
        exfalso
        rw [hst] at hs
        simp at hs
        rw [← hs] at hu
        exact Option.noConfusion hu
    | some s' =>
        rw [hst] at hs
        simp at hs
        rw [hs]

/-- Loading right after a store write yields the written session. -/
theorem get_session_set (store : Store) (k : String) (v : Session)
    (hk : k ≠ "") : get_session (Store.set store k v) (some k) = v := by
  simp [get_session, Store.set, hk]

/-- A valid (unexpired) user credential makes the token check a no-op. -/
theorem check_valid {store : Store} {k : String} {s : Session} {uid : Nat}
    {now e : Int} (rr : Option RefreshResp)
    (hs : get_session store (some k) = s) (hu : s.user_id = some uid)
    (he : s.access_token_expirytime = some e) (hnow : now ≤ e) :
    check_access_token_status store k now rr = .ok (store, 0, []) := by
  simp only [check_access_token_status, hs, hu, he, gt_iff_lt]
  rw [if_neg (not_lt.mpr hnow)]

/-- C10: with `{activity_id}_spotify_data` uncached and `{activity_id}_music_data`
absent, the catalog cross-reference endpoint fails immediately (the `for` loop
over the `None` field raises, caught as `{error_status: true}`), issuing zero
Spotify calls, zero listening-history calls, and writing nothing to the
session store. -/
theorem C10_missing_music_data_fails_without_calls (store : Store)
    (k id : String) (s : Session) (uid : Nat)
    (oracle : MusicTrack → TrackInputs)
    (hs : get_session store (some k) = s)
    (hu : s.user_id = some uid)
    (hsp : truthyLookup s.spotify_data id = none)
    (hm : lookupField s.music_data id = none) :
    (get_music_artist_data store k id oracle).response = .errorStatus ∧
    (get_music_artist_data store k id oracle).spotifyCalls = 0 ∧
    (get_music_artist_data store k id oracle).lastfmCalls = 0 ∧
    (get_music_artist_data store k id oracle).writes = [] ∧
    (get_music_artist_data store k id oracle).store = store := by
  simp [get_music_artist_data, hs, hu, hsp, hm]

/-- A placeholder Spotify track used to build concrete oracles. -/
def sampleSpotifyTrack : SpotifyTrack :=
  { id := "t0", name := "t0", preview_url := none,
    album := { artists := [], images := [] } }

/-- An oracle answering every track with empty search results. -/
def c10_oracle : MusicTrack → TrackInputs := fun _ =>
  { search_track_items := [], search_artist_items := [],
    track_detail := sampleSpotifyTrack, top_tracks := [],
    recommendations := [] }

/-- An authenticated session with no cached per-activity fields. -/
def c10_session : Session := { user_id := some 7 }

/-- A one-session store for the C10 witness. -/
def c10_store : Store := Store.set emptyStore "sx" c10_session

/-- C10 witness: concrete run of the cross-reference endpoint on a session
without `{id}_music_data`. -/
theorem C10_missing_music_data_fails_without_calls_witness :
    (get_music_artist_data c10_store "sx" "a9" c10_oracle).response =
      .errorStatus ∧
    (get_music_artist_data c10_store "sx" "a9" c10_oracle).spotifyCalls = 0 ∧
    (get_music_artist_data c10_store "sx" "a9" c10_oracle).lastfmCalls = 0 ∧
    (get_music_artist_data c10_store "sx" "a9" c10_oracle).writes = [] ∧
    (get_music_artist_data c10_store "sx" "a9" c10_oracle).store = c10_store :=
  C10_missing_music_data_fails_without_calls c10_store "sx" "a9" c10_session 7
    c10_oracle rfl rfl rfl rfl

/-- The session update performed by a successful Spotify client-credentials
exchange at time `now`: the stored expiry is the grant time plus half of the
provider-declared lifetime. -/
def spotifyRenewedSession (s : Session) (now : ℚ) (grant : SpotifyGrant) :
    Session :=
  { s with
      spotify_access_token :=
        some { token := grant.access_token,
               expiry_time := now + grant.expires_in / 2 } }

/-- C8: the app credential is reused iff the current time is strictly below
the stored `expiry_time`; otherwise (or when absent) exactly one
client-credentials exchange happens, and the stored expiry is set to the
grant time plus half the provider-declared lifetime, persisting the session. -/
theorem C8_app_credential_half_lifetime (store : Store) (k : String)
    (s : Session) (now : ℚ) (grant : SpotifyGrant) (tok : SpotifyAccessToken)
    (htok : s.spotify_access_token = some tok) :
    (now < tok.expiry_time →
      refresh_spotify_access_token store k s now grant =
        { token := tok.token, session := s, store := store, exchanges := 0,
          writes := [] }) ∧
    (tok.expiry_time ≤ now →
      refresh_spotify_access_token store k s now grant =
        { token := grant.access_token,
          session := spotifyRenewedSession s now grant,
          store := Store.set store k (spotifyRenewedSession s now grant),
          exchanges := 1,
          writes := [(k, spotifyRenewedSession s now grant)] }) ∧
    (refresh_spotify_access_token store k
        { s with spotify_access_token := none } now grant =
      { token := grant.access_token,
        session := spotifyRenewedSession
          { s with spotify_access_token := none } now grant,
        store := Store.set store k (spotifyRenewedSession
          { s with spotify_access_token := none } now grant),
        exchanges := 1,
        writes := [(k, spotifyRenewedSession
          { s with spotify_access_token := none } now grant)] }) := by
  refine ⟨?_, ?_, ?_⟩
  · intro h
    simp only [refresh_spotify_access_token, htok]
    rw [if_pos h]
  · intro h
    simp only [refresh_spotify_access_token, htok]
    rw [if_neg (not_lt.mpr h)]
    rfl
  · simp only [refresh_spotify_access_token]
    rfl

/-- A session holding a Spotify token that expires at 1800. -/
def c8_session : Session :=
  { user_id := some 1,
    spotify_access_token := some { token := "new", expiry_time := 1800 } }

/-- A client-credentials grant with a 3600-second declared lifetime. -/
def c8_grant : SpotifyGrant := { access_token := "new", expires_in := 3600 }

/-- C8 witness: a grant of lifetime 3600 at time 0 stores expiry 1800
(= 0 + 3600/2); a check at time 1900 performs a new exchange; a check at
time 1700 reuses the stored token with zero exchanges. -/
theorem C8_app_credential_half_lifetime_witness :
    (refresh_spotify_access_token emptyStore "k"
        { c8_session with spotify_access_token := none } 0 c8_grant).session.spotify_access_token =
      some { token := "new", expiry_time := 1800 } ∧
    (refresh_spotify_access_token emptyStore "k" c8_session 1900
        c8_grant).exchanges = 1 ∧
    (refresh_spotify_access_token emptyStore "k" c8_session 1700
        c8_grant).exchanges = 0 := by
  refine ⟨?_, ?_, ?_⟩
  · rw [(C8_app_credential_half_lifetime emptyStore "k" c8_session 0 c8_grant
      { token := "new", expiry_time := 1800 } rfl).2.2]
    simp only [spotifyRenewedSession, c8_grant]
    norm_num
  · rw [(C8_app_credential_half_lifetime emptyStore "k" c8_session 1900 c8_grant
      { token := "new", expiry_time := 1800 } rfl).2.1 (by norm_num)]
  · rw [(C8_app_credential_half_lifetime emptyStore "k" c8_session 1700 c8_grant
      { token := "new", expiry_time := 1800 } rfl).1 (by norm_num)]

/-- C4 counterexample: `retrieve_lastfm_user` performs no authentication
check.  Invoked with a session id unknown to the store and a successful
upstream lookup, it stores a session record containing only
`last_fm_username` — a record lacking `user_id` — under that id. -/
theorem C4_lastfm_stores_userless_record_counterexample :
    (retrieve_lastfm_user emptyStore (some "ghost") "alice" false).store
        "ghost" =
      some { emptySession with last_fm_username := some "alice" } ∧
    ({ emptySession with last_fm_username := some "alice" } : Session).user_id
      = none := by
  exact ⟨rfl, rfl⟩

/-- Every write performed by the token check carries a `user_id`. -/
theorem check_writes_keep_user_id (store : Store) (k : String) (now : Int)
    (rr : Option RefreshResp) (st2 : Store) (n : Nat)
    (w : List (String × Session))
    (h : check_access_token_status store k now rr = .ok (st2, n, w)) :
    ∀ p ∈ w, p.2.user_id.isSome := by
  intro p hp
  simp only [check_access_token_status] at h
  cases hu : (get_session store (some k)).user_id with
  | none => rw [hu] at h; simp at h
  | some uid =>
      rw [hu] at h
      cases he : (get_session store (some k)).access_token_expirytime with
      | none => rw [he] at h; simp at h
      | some e =>
          rw [he] at h
          dsimp only at h
          by_cases hlt : now > e
          · rw [if_pos hlt] at h
            cases rr with
            | none => simp at h
            | some r =>
                simp only [Except.ok.injEq, Prod.mk.injEq] at h
                obtain ⟨-, -, hw⟩ := h
                rw [← hw] at hp
                simp at hp
                rw [hp]
                simp [refreshedSession, hu]
          · rw [if_neg hlt] at h
            simp only [Except.ok.injEq, Prod.mk.injEq] at h
            obtain ⟨-, -, hw⟩ := h
            rw [← hw] at hp
            exact absurd hp (List.not_mem_nil p)

/-- The token check leaves the loaded session's `user_id` unchanged. -/
theorem check_ok_session_user_id (store : Store) (k : String) (now : Int)
    (rr : Option RefreshResp) (st2 : Store) (n : Nat)
    (w : List (String × Session))
    (h : check_access_token_status store k now rr = .ok (st2, n, w)) :
    (get_session st2 (some k)).user_id = (get_session store (some k)).user_id := by
  simp only [check_access_token_status] at h
  cases hu : (get_session store (some k)).user_id with
  | none => rw [hu] at h; simp at h
  | some uid =>
      rw [hu] at h
      cases he : (get_session store (some k)).access_token_expirytime with
      | none => rw [he] at h; simp at h
      | some e =>
          rw [he] at h
          dsimp only at h
          by_cases hlt : now > e
          · rw [if_pos hlt] at h
            cases rr with
            | none => simp at h
            | some r =>
                simp only [Except.ok.injEq, Prod.mk.injEq] at h
                obtain ⟨hst, -, -⟩ := h
                obtain ⟨hk, -⟩ := session_of_auth
                  (rfl : get_session store (some k) = _) hu
                rw [← hst, get_session_set _ _ _ hk, refreshedSession, hu]
          · rw [if_neg hlt] at h
            simp only [Except.ok.injEq, Prod.mk.injEq] at h
            obtain ⟨hst, -, -⟩ := h
            rw [← hst]
            exact hu

/-- Every session record persisted by the detail+streams endpoint carries a
`user_id`. -/
theorem strava_detail_writes_keep_user_id (store : Store) (k id : String)
    (now : Int) (rr : Option RefreshResp) (pd : ActivityDetail)
    (ps : StreamsData) :
    ∀ p ∈ (get_activity_strava_data store k id now rr pd ps).writes,
      p.2.user_id.isSome := by
  intro p hp
  simp only [get_activity_strava_data] at hp
  cases hu : (get_session store (some k)).user_id with
  | none => rw [hu] at hp; simp at hp
  | some uid =>
      rw [hu] at hp
      cases hc : check_access_token_status store k now rr with
      | error e => rw [hc] at hp; simp at hp
      | ok trip =>
          obtain ⟨store1, rc, w1⟩ := trip
          rw [hc] at hp
          dsimp only at hp
          have hmid : (get_session store1 (some k)).user_id = some uid := by
            rw [check_ok_session_user_id store k now rr store1 rc w1 hc, hu]
          rw [List.mem_append] at hp
          rcases hp with hp | hp
          · exact check_writes_keep_user_id store k now rr store1 rc w1 hc p hp
          · simp only [List.mem_singleton] at hp
            rw [hp]
            simp only [cache_activity_streams, cache_activity_data]
            split <;> split <;> simp_all

/-- The music endpoint's detail step preserves the loaded session's
`user_id` and only writes records that carry one. -/
theorem music_detail_step_user_id (store : Store) (sid id : String)
    (now : Int) (rr : Option RefreshResp) (pd : ActivityDetail)
    (d : ActivityDetail) (dc rc : Nat) (store1 : Store)
    (w1 : List (String × Session))
    (h : music_detail_step store sid id now rr pd = .ok (d, dc, rc, store1, w1)) :
    (get_session store1 (some sid)).user_id =
        (get_session store (some sid)).user_id ∧
      ∀ p ∈ w1, p.2.user_id.isSome := by
  simp only [music_detail_step] at h
  cases hl : lookupField (get_session store (some sid)).activity_data id with
  | some d0 =>
      rw [hl] at h
      simp only [Except.ok.injEq, Prod.mk.injEq] at h
      obtain ⟨-, -, -, hst, hw⟩ := h
      refine ⟨by rw [← hst], ?_⟩
      intro p hp
      rw [← hw] at hp
      exact absurd hp (List.not_mem_nil p)
  | none =>
      rw [hl] at h
      cases hc : check_access_token_status store sid now rr with
      | error e => rw [hc] at h; simp at h
      | ok trip =>
          obtain ⟨st1, n1, ws1⟩ := trip
          rw [hc] at h
          simp only [Except.ok.injEq, Prod.mk.injEq] at h
          obtain ⟨-, -, -, hst, hw⟩ := h
          constructor
          · rw [← hst]
            exact check_ok_session_user_id store sid now rr st1 n1 ws1 hc
          · intro p hp
            rw [← hw] at hp
            exact check_writes_keep_user_id store sid now rr st1 n1 ws1 hc p hp

/-- Every session record persisted by the music-correlation endpoint carries
a `user_id`. -/
theorem music_writes_keep_user_id (store : Store) (k id : String) (now : Int)
    (rr : Option RefreshResp) (pd : ActivityDetail) (recent : RecentTracks)
    (oracle : RawTrack → Option TrackInfo) :
    ∀ p ∈ (get_activity_music_data store k id now rr pd recent oracle).writes,
      p.2.user_id.isSome := by
  intro p hp
  simp only [get_activity_music_data] at hp
  cases hu : (get_session store (some k)).user_id with
  | none => rw [hu] at hp; simp at hp
  | some uid =>
      rw [hu] at hp
      cases hstep : music_detail_step store k id now rr pd with
      | error e => rw [hstep] at hp; simp at hp
      | ok out =>
          obtain ⟨d, dc, rc, store1, w1⟩ := out
          obtain ⟨hmid, hw1⟩ :=
            music_detail_step_user_id store k id now rr pd d dc rc store1 w1 hstep
          rw [hu] at hmid
          rw [hstep] at hp
          dsimp only at hp
          cases hml : truthyLookup (get_session store1 (some k)).music_data id with
          | some ml => rw [hml] at hp; exact hw1 p hp
          | none =>
              rw [hml] at hp
              rcases henr : enrich oracle (drop_nowplaying (normalizeRecent recent))
                with ⟨res, n⟩
              rw [henr] at hp
              cases res with
              | error e => exact hw1 p hp
              | ok el =>
                  dsimp only at hp
                  cases hbf : buffer_filter d.start_date_unix el with
                  | error e => rw [hbf] at hp; exact hw1 p hp
                  | ok ml =>
                      rw [hbf] at hp
                      dsimp only at hp
                      rw [List.mem_append] at hp
                      rcases hp with hp | hp
                      · exact hw1 p hp
                      · simp only [List.mem_singleton] at hp
                        rw [hp]
                        simp [hmid]

/-- Every record persisted by the per-track loop carries the `user_id` of the
session it started from. -/
theorem spotify_loop_writes_user_id (sid id : String)
    (oracle : MusicTrack → TrackInputs) (l : List MusicTrack) (sess : Session)
    (st : Store) (acc : List SpotifyRecord) :
    ∀ p ∈ (spotify_track_loop sid id oracle l sess st acc).writes,
      p.2.user_id = sess.user_id := by
  induction l generalizing sess st acc with
  | nil => intro p hp; simp [spotify_track_loop] at hp
  | cons t rest ih =>
      intro p hp
      simp only [spotify_track_loop] at hp
      cases hpt : process_track (oracle t) with
      | mk res n =>
          rw [hpt] at hp
          cases res with
          | error e => simp at hp
          | ok out =>
              dsimp only at hp
              rw [List.mem_cons] at hp
              rcases hp with hp | hp
              · rw [hp]
              · exact ih
                  { sess with
                      spotify_data :=
                        setField sess.spotify_data id (acc ++ [out.record]) }
                  _ _ p hp

/-- Every session record persisted by the cross-reference endpoint carries a
`user_id`. -/
theorem artist_writes_keep_user_id (store : Store) (k id : String)
    (oracle : MusicTrack → TrackInputs) :
    ∀ p ∈ (get_music_artist_data store k id oracle).writes,
      p.2.user_id.isSome := by
  intro p hp
  simp only [get_music_artist_data] at hp
  cases hu : (get_session store (some k)).user_id with
  | none => rw [hu] at hp; simp at hp
  | some uid =>
      rw [hu] at hp
      cases hsp : truthyLookup (get_session store (some k)).spotify_data id with
      | some cached => rw [hsp] at hp; simp at hp
      | none =>
          rw [hsp] at hp
          cases hml : lookupField (get_session store (some k)).music_data id with
          | none => rw [hml] at hp; simp at hp
          | some ml =>
              rw [hml] at hp
              dsimp only at hp
              have hw := spotify_loop_writes_user_id k id oracle ml
                (get_session store (some k)) store []
              by_cases herr : (spotify_track_loop k id oracle ml
                  (get_session store (some k)) store []).error
              · rw [if_pos herr] at hp
                rw [hw p hp, hu]
                rfl
              · rw [if_neg herr] at hp
                rw [hw p hp, hu]
                rfl

/-- When the loaded session is authenticated, the listening-history linking
endpoint persists only records that keep that `user_id`. -/
theorem lastfm_writes_keep_user_id (store : Store) (sid : Option String)
    (username : String) (ue : Bool) (s : Session) (uid : Nat)
    (hs : get_session store sid = s) (hu : s.user_id = some uid) :
    ∀ p ∈ (retrieve_lastfm_user store sid username ue).writes,
      p.2.user_id.isSome := by
  intro p hp
  simp only [retrieve_lastfm_user, hs] at hp
  by_cases hue : ue
  · rw [if_pos hue] at hp; simp at hp
  · rw [if_neg hue] at hp
    cases sid with
    | none => simp at hp
    | some sk =>
        dsimp only at hp
        rw [List.mem_singleton] at hp
        rw [hp]
        simp [hu]

/-- C4 (amended): the session load yields the empty record — treated as
unauthenticated, never an error — for an absent, empty, or unknown session
identifier, and the token check and the three per-activity endpoints persist
only session records carrying `user_id`; the listening-history linking
endpoint also does so whenever the session it loads is authenticated (but it
performs no authentication check of its own, so with an unknown session id it
can store a record lacking `user_id`). -/
theorem C4_session_invariant :
    (∀ store : Store, get_session store none = emptySession) ∧
    (∀ store : Store, get_session store (some "") = emptySession) ∧
    (∀ (store : Store) (k : String), store k = none →
      get_session store (some k) = emptySession) ∧
    emptySession.user_id = none ∧
    (∀ (store : Store) (k : String) (now : Int) (rr : Option RefreshResp)
      (st2 : Store) (n : Nat) (w : List (String × Session)),
      check_access_token_status store k now rr = .ok (st2, n, w) →
      ∀ p ∈ w, p.2.user_id.isSome) ∧
    (∀ (store : Store) (k id : String) (now : Int) (rr : Option RefreshResp)
      (pd : ActivityDetail) (ps : StreamsData),
      ∀ p ∈ (get_activity_strava_data store k id now rr pd ps).writes,
        p.2.user_id.isSome) ∧
    (∀ (store : Store) (k id : String) (now : Int) (rr : Option RefreshResp)
      (pd : ActivityDetail) (recent : RecentTracks)
      (oracle : RawTrack → Option TrackInfo),
      ∀ p ∈ (get_activity_music_data store k id now rr pd recent oracle).writes,
        p.2.user_id.isSome) ∧
    (∀ (store : Store) (k id : String) (oracle : MusicTrack → TrackInputs),
      ∀ p ∈ (get_music_artist_data store k id oracle).writes,
        p.2.user_id.isSome) ∧
    (∀ (store : Store) (sid : Option String) (username : String) (ue : Bool)
      (s : Session) (uid : Nat),
      get_session store sid = s → s.user_id = some uid →
      ∀ p ∈ (retrieve_lastfm_user store sid username ue).writes,
        p.2.user_id.isSome) := by
  refine ⟨fun _ => rfl, fun _ => rfl, ?_, rfl, ?_, ?_, ?_, ?_, ?_⟩
  · intro store k h
    by_cases hk : k = ""
    · simp [get_session, hk]
    · simp [get_session, hk, h]
  · exact fun store k now rr st2 n w h =>
      check_writes_keep_user_id store k now rr st2 n w h
  · exact fun store k id now rr pd ps =>
      strava_detail_writes_keep_user_id store k id now rr pd ps
  · exact fun store k id now rr pd recent oracle =>
      music_writes_keep_user_id store k id now rr pd recent oracle
  · exact fun store k id oracle => artist_writes_keep_user_id store k id oracle
  · exact fun store sid username ue s uid hs hu =>
      lastfm_writes_keep_user_id store sid username ue s uid hs hu

/-- An authenticated session with a still-valid user token and no cached
per-activity fields. -/
def c4_session : Session :=
  { user_id := some 2, access_token := some "tk", refresh_token := some "rk",
    access_token_expirytime := some 1000 }

/-- A one-session store for the C4 witness. -/
def c4_store : Store := Store.set emptyStore "sd" c4_session

/-- A live activity-detail response used in the C4 witness runs. -/
def c4_pd : ActivityDetail := { start_date_unix := 100, elapsed_time := 50 }

/-- A live streams response used in the C4 witness runs. -/
def c4_ps : StreamsData := { payload := "v" }

/-- An empty listening-history response. -/
def c4_recent : RecentTracks := .many []

/-- A metadata oracle answering every track with a 1000 ms duration. -/
def c4_oracle_info : RawTrack → Option TrackInfo := fun _ =>
  some { duration := some 1000 }

/-- C4 witness: concrete loads of absent/empty/unknown session identifiers,
and concrete runs of each persisting operation whose stored records all carry
`user_id`. -/
theorem C4_session_invariant_witness :
    get_session emptyStore none = emptySession ∧
    get_session emptyStore (some "") = emptySession ∧
    get_session emptyStore (some "zz") = emptySession ∧
    emptySession.user_id = none ∧
    ((get_activity_strava_data c4_store "sd" "a1" 0 none c4_pd c4_ps).writes.all
      (fun p => p.2.user_id.isSome)) = true ∧
    ((get_activity_music_data c4_store "sd" "a1" 0 none c4_pd c4_recent
        c4_oracle_info).writes.all (fun p => p.2.user_id.isSome)) = true ∧
    ((get_music_artist_data c4_store "sd" "a1" c10_oracle).writes.all
      (fun p => p.2.user_id.isSome)) = true ∧
    ((retrieve_lastfm_user c4_store (some "sd") "bob" false).writes.all
      (fun p => p.2.user_id.isSome)) = true := by
  refine ⟨C4_session_invariant.1 emptyStore, C4_session_invariant.2.1 emptyStore,
    C4_session_invariant.2.2.1 emptyStore "zz" rfl, C4_session_invariant.2.2.2.1,
    ?_, ?_, ?_, ?_⟩
  · exact List.all_eq_true.mpr fun p hp =>
      C4_session_invariant.2.2.2.2.2.1 c4_store "sd" "a1" 0 none c4_pd c4_ps p hp
  · exact List.all_eq_true.mpr fun p hp =>
      C4_session_invariant.2.2.2.2.2.2.1 c4_store "sd" "a1" 0 none c4_pd
        c4_recent c4_oracle_info p hp
  · exact List.all_eq_true.mpr fun p hp =>
      C4_session_invariant.2.2.2.2.2.2.2.1 c4_store "sd" "a1" c10_oracle p hp
  · exact List.all_eq_true.mpr fun p hp =>
      C4_session_invariant.2.2.2.2.2.2.2.2 c4_store (some "sd") "bob" false
        c4_session 2 rfl rfl p hp

/-- The name of a recommendation candidate's primary album artist
(`album.artists[0].name`), defaulting for the impossible empty case. -/
def primaryNameD (r : SpotifyTrack) : String :=
  ((r.album.artists.head?).map SpotifyArtistRef.name).getD ""

/-- The top-tracks loop equals a filter of the candidates (drop the current
track by name) followed by the per-track record assembly. -/
theorem build_top_tracks_eq (curr an : String) (l : List SpotifyTrack) :
    build_top_tracks curr an l =
      (l.filter (fun t => !(t.name == curr))).map (mk_top_track an) := by
  induction l with
  | nil => rfl
  | cons t rest ih =>
      by_cases h : t.name = curr
      · simp [build_top_tracks, h, ih, List.filter_cons]
      · simp [build_top_tracks, h, ih, List.filter_cons]

/-- When every candidate has a non-empty album artist list, the
recommendation loop succeeds and equals a filter (drop candidates whose
primary artist is the seed artist) followed by record assembly. -/
theorem build_recommended_eq (seed : String) (l : List SpotifyTrack)
    (h : ∀ r ∈ l, r.album.artists ≠ []) :
    build_recommended seed l =
      .ok ((l.filter (fun r => !(primaryNameD r == seed))).map
        (fun r => mk_rec_track (primaryNameD r) r)) := by
  induction l with
  | nil => rfl
  | cons r rest ih =>
      have hr := h r (List.mem_cons_self r rest)
      have hrest : ∀ x ∈ rest, x.album.artists ≠ [] := fun x hx =>
        h x (List.mem_cons_of_mem r hx)
      cases ha : r.album.artists with
      | nil => exact absurd ha hr
      | cons a as =>
          have hpn : primaryNameD r = a.name := by simp [primaryNameD, ha]
          by_cases hname : a.name = seed
          · simp [build_recommended, ha, hname, ih hrest, List.filter_cons, hpn]
          · simp [build_recommended, ha, hname, ih hrest, List.filter_cons, hpn]

/-- When every entry carries a duration, the buffer post-filter succeeds and
equals a plain filter on `duration/1000 + uts < start`. -/
theorem buffer_filter_all_some (start : Int) (l : List MusicTrack)
    (h : ∀ m ∈ l, m.duration ≠ none) :
    buffer_filter start l =
      .ok (l.filter (fun m =>
        !(decide (((m.duration.getD 0 : ℚ) / 1000) + (m.raw.date_uts : ℚ) <
          (start : ℚ))))) := by
  induction l with
  | nil => rfl
  | cons m rest ih =>
      have hm := h m (List.mem_cons_self m rest)
      have hrest : ∀ x ∈ rest, x.duration ≠ none := fun x hx =>
        h x (List.mem_cons_of_mem m hx)
      cases hd : m.duration with
      | none => exact absurd hd hm
      | some dv =>
          by_cases hcond :
            ((dv : ℚ) / 1000) + (m.raw.date_uts : ℚ) < (start : ℚ)
          · simp [buffer_filter, hd, ih hrest, List.filter_cons, hcond]
          · simp [buffer_filter, hd, ih hrest, List.filter_cons, hcond]

/-- An entry with a missing duration makes the buffer post-filter raise
(`int(None)`). -/
theorem buffer_filter_error_of_none (start : Int) (l : List MusicTrack)
    (m : MusicTrack) (hm : m ∈ l) (hd : m.duration = none) :
    buffer_filter start l = .error () := by
  induction l with
  | nil => exact absurd hm (List.not_mem_nil m)
  | cons x rest ih =>
      rw [List.mem_cons] at hm
      rcases hm with hm | hm
      · rw [hm] at hd
        simp [buffer_filter, hd]
      · cases hx : x.duration with
        | none => simp [buffer_filter, hx]
        | some dv => simp [buffer_filter, hx, ih hm]

/-- C5 counterexample part 1: a matched artist whose `images` list is empty. -/
def c5_artist : SpotifyArtist :=
  { id := "aid", name := "Seed", images := [], genres := [] }

/-- A track whose album has a primary artist but no artwork. -/
def c5_track : SpotifyTrack :=
  { id := "tid", name := "Song", preview_url := none,
    album := { artists := [{ name := "Seed" }], images := [] } }

/-- Per-track inputs whose artist search yields an artwork-less artist. -/
def c5_inp : TrackInputs :=
  { search_track_items := [c5_track], search_artist_items := [c5_artist],
    track_detail := c5_track, top_tracks := [], recommendations := [] }

/-- A scrobble used in the missing-duration scenario. -/
def c5_raw : RawTrack :=
  { name := "x", artist_text := "y", album_text := "z", date_uts := 90,
    nowplaying := false }

/-- An authenticated session with the activity detail already cached. -/
def c5_session : Session :=
  { user_id := some 3, activity_data := [("a1", c4_pd)] }

/-- A one-session store for the C5 scenarios. -/
def c5_store : Store := Store.set emptyStore "s5" c5_session

/-- A metadata oracle whose `track` object has no duration field. -/
def c5_oracle : RawTrack → Option TrackInfo := fun _ =>
  some { duration := none }

/-- C5 counterexample: (1) an artist with an empty image list makes
`process_track` fail the whole record (the `artist_data.get('images')[0]`
access in the record assembly is not guarded), instead of yielding a null
image; (2) a metadata lookup returning no duration makes the whole
music-correlation request fail (`int(None)` raises in the post-filter),
instead of treating the duration as 0. -/
theorem C5_unguarded_failures_counterexample :
    process_track c5_inp = (.error (), 5) ∧
    (get_activity_music_data c5_store "s5" "a1" 0 none c4_pd
        (RecentTracks.many [c5_raw]) c5_oracle).response = .errorStatus := by
  exact ⟨rfl, rfl⟩

/-- C5 (amended): missing artwork degrades to a null image for top-track and
recommendation entries, which are still assembled into the result — but not
for the current track's artist image: an artist with no images aborts the
whole record; and an entry whose metadata lookup yields no duration aborts
the music-correlation request in the post-filter instead of being treated
as duration 0. -/
theorem C5_optional_metadata_degradation :
    (∀ (an : String) (t : SpotifyTrack), t.album.images = [] →
      (mk_top_track an t).image = none) ∧
    (∀ (pn : String) (t : SpotifyTrack), t.album.images = [] →
      (mk_rec_track pn t).image = none) ∧
    (∀ (curr an : String) (l : List SpotifyTrack),
      build_top_tracks curr an l =
        (l.filter (fun t => !(t.name == curr))).map (mk_top_track an)) ∧
    (∀ (seed : String) (l : List SpotifyTrack),
      (∀ r ∈ l, r.album.artists ≠ []) →
      build_recommended seed l =
        .ok ((l.filter (fun r => !(primaryNameD r == seed))).map
          (fun r => mk_rec_track (primaryNameD r) r))) ∧
    (∀ (inp : TrackInputs) (st : SpotifyTrack) (srest : List SpotifyTrack)
      (ad : SpotifyArtist) (arest : List SpotifyArtist),
      inp.search_track_items = st :: srest →
      inp.search_artist_items = ad :: arest →
      ad.images = [] →
      (∀ r ∈ inp.recommendations, r.album.artists ≠ []) →
      process_track inp = (.error (), 5)) ∧
    (∀ (start : Int) (l : List MusicTrack) (m : MusicTrack), m ∈ l →
      m.duration = none → buffer_filter start l = .error ()) := by
  refine ⟨?_, ?_, build_top_tracks_eq, build_recommended_eq, ?_,
    buffer_filter_error_of_none⟩
  · intro an t h
    simp [mk_top_track, h]
  · intro pn t h
    simp [mk_rec_track, h]
  · intro inp st srest ad arest h1 h2 h3 h4
    simp only [process_track, h1, h2, List.head?_cons]
    rw [build_recommended_eq ad.name inp.recommendations h4]
    simp [h3]

/-- C5 witness: concrete degradations (null image in an assembled top-track
and recommendation record) and concrete failures (record aborted by an
image-less artist; request aborted by a missing duration). -/
theorem C5_optional_metadata_degradation_witness :
    (mk_top_track "A" c5_track).image = none ∧
    (mk_rec_track "A" c5_track).image = none ∧
    build_top_tracks "Other" "A" [c5_track] =
      (([c5_track]).filter (fun t => !(t.name == "Other"))).map
        (mk_top_track "A") ∧
    build_recommended "Seed" [c5_track] =
      .ok ((([c5_track]).filter (fun r => !(primaryNameD r == "Seed"))).map
        (fun r => mk_rec_track (primaryNameD r) r)) ∧
    process_track c5_inp = (.error (), 5) ∧
    buffer_filter 0 [{ raw := c5_raw, duration := none }] = .error () := by
  refine ⟨C5_optional_metadata_degradation.1 "A" c5_track rfl,
    C5_optional_metadata_degradation.2.1 "A" c5_track rfl,
    C5_optional_metadata_degradation.2.2.1 "Other" "A" [c5_track],
    C5_optional_metadata_degradation.2.2.2.1 "Seed" [c5_track] (by decide),
    C5_optional_metadata_degradation.2.2.2.2.1 c5_inp c5_track [] c5_artist []
      rfl rfl rfl (by decide),
    C5_optional_metadata_degradation.2.2.2.2.2 0
      [{ raw := c5_raw, duration := none }] { raw := c5_raw, duration := none }
      (by decide) rfl⟩

/-- C9: the recommendation sub-step sends limit 15 seeded by the matched
artist and track, drops every candidate whose primary (album) artist name
equals the seed artist's name, and truncates the remainder to the first 10;
with 15 candidates of which exactly 3 match the seed artist, the final
`recommended_tracks` list has exactly 10 entries. -/
theorem C9_recommendation_truncation (inp : TrackInputs) (st : SpotifyTrack)
    (srest : List SpotifyTrack) (ad : SpotifyArtist)
    (arest : List SpotifyArtist)
    (h1 : inp.search_track_items = st :: srest)
    (h2 : inp.search_artist_items = ad :: arest)
    (h3 : ad.images ≠ [])
    (h4 : ∀ r ∈ inp.recommendations, r.album.artists ≠ [])
    (h5 : inp.recommendations.length = 15)
    (h6 : (inp.recommendations.filter
      (fun r => primaryNameD r == ad.name)).length = 3) :
    ∃ po : ProcessOut, process_track inp = (.ok po, 5) ∧
      po.rec_request =
        { seed_artist := ad.id, seed_tracks := st.id, limit := 15 } ∧
      po.record.recommended_tracks =
        ((inp.recommendations.filter
          (fun r => !(primaryNameD r == ad.name))).map
            (fun r => mk_rec_track (primaryNameD r) r)).take 10 ∧
      po.record.recommended_tracks.length = 10 := by
  obtain ⟨img, imgs, himg⟩ := List.exists_cons_of_ne_nil h3
  have hrec := build_recommended_eq ad.name inp.recommendations h4
  have hflen : (inp.recommendations.filter
      (fun r => !(primaryNameD r == ad.name))).length = 12 := by
    have hsplit := List.length_eq_length_filter_add
      (l := inp.recommendations) (fun r => primaryNameD r == ad.name)
    rw [h5, h6] at hsplit
    omega
  have hgt : ((inp.recommendations.filter
      (fun r => !(primaryNameD r == ad.name))).map
        (fun r => mk_rec_track (primaryNameD r) r)).length > 10 := by
    rw [List.length_map, hflen]
    norm_num
  have heq : process_track inp = (Except.ok (⟨⟨⟨inp.track_detail.name, ⟨ad.name, img.url, build_top_tracks inp.track_detail.name ad.name inp.top_tracks⟩, inp.track_detail.preview_url, ad.genres⟩, ((inp.recommendations.filter (fun r => !(primaryNameD r == ad.name))).map (fun r => mk_rec_track (primaryNameD r) r)).take 10⟩, ⟨ad.id, st.id, 15⟩⟩ : ProcessOut), 5) := by
    simp only [process_track, h1, h2, List.head?_cons, hrec, himg]
    rw [if_pos hgt]
  refine ⟨_, heq, rfl, rfl, ?_⟩
  simp only [List.length_take, List.length_map, hflen]
  decide

/-- A recommendation candidate by the seed artist (to be excluded). -/
def c9_rec_seed : SpotifyTrack :=
  { id := "r1", name := "R1", preview_url := none,
    album := { artists := [{ name := "Seed" }], images := [] } }

/-- A recommendation candidate by a different artist (to be kept). -/
def c9_rec_other : SpotifyTrack :=
  { id := "r2", name := "R2", preview_url := some "p",
    album := { artists := [{ name := "Other" }], images := [{ url := "u" }] } }

/-- The matched seed artist for the C9 witness. -/
def c9_artist : SpotifyArtist :=
  { id := "aid", name := "Seed", images := [{ url := "au" }],
    genres := ["rock"] }

/-- Per-track inputs with 15 recommendation candidates, 3 by the seed
artist. -/
def c9_inp : TrackInputs :=
  { search_track_items := [c5_track], search_artist_items := [c9_artist],
    track_detail := c5_track, top_tracks := [],
    recommendations :=
      List.replicate 3 c9_rec_seed ++ List.replicate 12 c9_rec_other }

/-- C9 witness: on 15 concrete candidates with 3 by the seed artist, the
processed track's recommendation request carries limit 15 and the final
`recommended_tracks` list has exactly 10 entries. -/
theorem C9_recommendation_truncation_witness :
    (process_track c9_inp).2 = 5 ∧
    ((process_track c9_inp).1.toOption.map (fun po => po.rec_request.limit)) =
      some 15 ∧
    ((process_track c9_inp).1.toOption.map
      (fun po => po.record.recommended_tracks.length)) = some 10 := by
  obtain ⟨po, h, hreq, htr, hlen⟩ := C9_recommendation_truncation c9_inp
    c5_track [] c9_artist [] rfl rfl (by decide) (by decide) (by decide)
    (by decide)
  rw [h]
  refine ⟨rfl, ?_, ?_⟩
  · simp [Except.toOption, hreq]
  · simp [Except.toOption, hlen]

/-- Overwriting a store key twice keeps only the last value. -/
theorem Store.set_set (st : Store) (k : String) (v w : Session) :
    Store.set (Store.set st k v) k w = Store.set st k w := by
  funext q
  by_cases h : q = k <;> simp [Store.set, h]

/-- The record produced by a successfully processed track, if any. -/
def processedRecord (oracle : MusicTrack → TrackInputs) (t : MusicTrack) :
    Option SpotifyRecord :=
  match (process_track (oracle t)).1 with
  | .ok po => some po.record
  | .error _ => none

/-- The per-track loop splits over list concatenation: run the first part; if
it aborted, that is the whole run, otherwise continue from its state,
concatenating the writes and adding the call counts. -/
theorem spotify_loop_append (sid id : String)
    (oracle : MusicTrack → TrackInputs) (l1 l2 : List MusicTrack)
    (sess : Session) (st : Store) (acc : List SpotifyRecord) :
    spotify_track_loop sid id oracle (l1 ++ l2) sess st acc =
      (if (spotify_track_loop sid id oracle l1 sess st acc).error then
        spotify_track_loop sid id oracle l1 sess st acc
      else
        { spotify_data_list :=
            (spotify_track_loop sid id oracle l2
              (spotify_track_loop sid id oracle l1 sess st acc).session
              (spotify_track_loop sid id oracle l1 sess st acc).store
              (spotify_track_loop sid id oracle l1 sess st acc).spotify_data_list).spotify_data_list
          session :=
            (spotify_track_loop sid id oracle l2
              (spotify_track_loop sid id oracle l1 sess st acc).session
              (spotify_track_loop sid id oracle l1 sess st acc).store
              (spotify_track_loop sid id oracle l1 sess st acc).spotify_data_list).session
          store :=
            (spotify_track_loop sid id oracle l2
              (spotify_track_loop sid id oracle l1 sess st acc).session
              (spotify_track_loop sid id oracle l1 sess st acc).store
              (spotify_track_loop sid id oracle l1 sess st acc).spotify_data_list).store
          writes :=
            (spotify_track_loop sid id oracle l1 sess st acc).writes ++
              (spotify_track_loop sid id oracle l2
                (spotify_track_loop sid id oracle l1 sess st acc).session
                (spotify_track_loop sid id oracle l1 sess st acc).store
                (spotify_track_loop sid id oracle l1 sess st acc).spotify_data_list).writes
          calls :=
            (spotify_track_loop sid id oracle l1 sess st acc).calls +
              (spotify_track_loop sid id oracle l2
                (spotify_track_loop sid id oracle l1 sess st acc).session
                (spotify_track_loop sid id oracle l1 sess st acc).store
                (spotify_track_loop sid id oracle l1 sess st acc).spotify_data_list).calls
          error :=
            (spotify_track_loop sid id oracle l2
              (spotify_track_loop sid id oracle l1 sess st acc).session
              (spotify_track_loop sid id oracle l1 sess st acc).store
              (spotify_track_loop sid id oracle l1 sess st acc).spotify_data_list).error }) := by
  induction l1 generalizing sess st acc with
  | nil => simp [spotify_track_loop]
  | cons t rest ih =>
      rcases hpt : process_track (oracle t) with ⟨res, n⟩
      cases res with
      | error e =>
          simp [spotify_track_loop, hpt]
      | ok out =>
          simp only [List.cons_append, spotify_track_loop, hpt, List.append_eq]
          rw [ih]
          by_cases herr : (spotify_track_loop sid id oracle rest
              { sess with
                  spotify_data := setField sess.spotify_data id
                    (acc ++ [out.record]) }
              (Store.set st sid
                { sess with
                    spotify_data := setField sess.spotify_data id
                      (acc ++ [out.record]) })
              (acc ++ [out.record])).error
          · simp [herr]
          · simp [herr, List.append_assoc, Nat.add_assoc]

/-- A loop whose head track fails aborts immediately: nothing is appended,
written or kept beyond the calls made for the failing track. -/
theorem spotify_loop_error_head (sid id : String)
    (oracle : MusicTrack → TrackInputs) (bad : MusicTrack)
    (rest : List MusicTrack) (sess : Session) (st : Store)
    (acc : List SpotifyRecord)
    (hbad : (process_track (oracle bad)).1 = Except.error ()) :
    spotify_track_loop sid id oracle (bad :: rest) sess st acc =
      { spotify_data_list := acc, session := sess, store := st, writes := [],
        calls := (process_track (oracle bad)).2, error := true } := by
  have hpair : process_track (oracle bad) =
      (Except.error (), (process_track (oracle bad)).2) := by
    rw [← hbad]
  simp only [spotify_track_loop]
  rw [hpair]

/-- A loop in which every track processes successfully never aborts; it
appends exactly the processed records in order, and (when the list is
non-empty) leaves the session holding the full accumulated list under
`{id}_spotify_data`, persisted in the store under the session id. -/
theorem spotify_loop_all_ok (sid id : String)
    (oracle : MusicTrack → TrackInputs) (l : List MusicTrack) (sess : Session)
    (st : Store) (acc : List SpotifyRecord)
    (h : ∀ t ∈ l, ∃ po n, process_track (oracle t) = (.ok po, n)) :
    (spotify_track_loop sid id oracle l sess st acc).error = false ∧
    (spotify_track_loop sid id oracle l sess st acc).spotify_data_list =
      acc ++ l.filterMap (processedRecord oracle) ∧
    (spotify_track_loop sid id oracle l sess st acc).session =
      (if l = [] then sess else
        { sess with
            spotify_data := setField sess.spotify_data id
              (acc ++ l.filterMap (processedRecord oracle)) }) ∧
    (spotify_track_loop sid id oracle l sess st acc).store =
      (if l = [] then st else
        Store.set st sid
          (spotify_track_loop sid id oracle l sess st acc).session) := by
  induction l generalizing sess st acc with
  | nil => simp [spotify_track_loop]
  | cons t rest ih =>
      obtain ⟨po, n, hpt⟩ := h t (List.mem_cons_self t rest)
      have hrest : ∀ x ∈ rest, ∃ po n, process_track (oracle x) = (.ok po, n) :=
        fun x hx => h x (List.mem_cons_of_mem t hx)
      have hprt : processedRecord oracle t = some po.record := by
        simp [processedRecord, hpt]
      obtain ⟨ihe, ihl, ihs, ihst⟩ := ih
        { sess with
            spotify_data := setField sess.spotify_data id
              (acc ++ [po.record]) }
        (Store.set st sid
          { sess with
              spotify_data := setField sess.spotify_data id
                (acc ++ [po.record]) })
        (acc ++ [po.record]) hrest
      simp only [spotify_track_loop, hpt]
      refine ⟨ihe, ?_, ?_, ?_⟩
      · rw [ihl, List.filterMap_cons, hprt]
        simp [List.append_assoc]
      · rw [ihs]
        by_cases hr : rest = []
        · subst hr
          simp [List.filterMap_cons, hprt]
        · rw [if_neg hr, if_neg (List.cons_ne_nil t rest)]
          simp [List.filterMap_cons, hprt, setField_setField,
            List.append_assoc, Session.mk.injEq]
      · rw [ihst]
        by_cases hr : rest = []
        · subst hr
          simp [spotify_track_loop]
        · rw [if_neg hr, Store.set_set, if_neg (List.cons_ne_nil t rest)]

/-- C7: if the first tracks of `{id}_music_data` process successfully and a
later track fails, the endpoint reports an error but the records of the
successfully processed tracks are already persisted under
`{id}_spotify_data` in the Session Store (one write per processed track), and
a later request for the same activity id is served from that cache with zero
further Spotify calls. -/
theorem C7_per_track_persistence (store : Store) (k id : String)
    (oracle : MusicTrack → TrackInputs) (good : List MusicTrack)
    (bad : MusicTrack) (rest : List MusicTrack) (s : Session) (uid : Nat)
    (hs : get_session store (some k) = s) (hu : s.user_id = some uid)
    (hsp : truthyLookup s.spotify_data id = none)
    (hm : lookupField s.music_data id = some (good ++ bad :: rest))
    (hgood : ∀ t ∈ good, ∃ po n, process_track (oracle t) = (.ok po, n))
    (hbad : (process_track (oracle bad)).1 = Except.error ())
    (hne : good ≠ []) :
    (get_music_artist_data store k id oracle).response = .errorStatus ∧
    (get_music_artist_data store k id oracle).store k =
      some { s with spotify_data :=
                      setField s.spotify_data id
                        (good.filterMap (processedRecord oracle)) } ∧
    (get_music_artist_data (get_music_artist_data store k id oracle).store
        k id oracle).response =
      .ok (good.filterMap (processedRecord oracle)) ∧
    (get_music_artist_data (get_music_artist_data store k id oracle).store
        k id oracle).spotifyCalls = 0 := by
  obtain ⟨hk, hsk⟩ := session_of_auth hs hu
  obtain ⟨e1, e2, e3, e4⟩ := spotify_loop_all_ok k id oracle good s store []
    hgood
  rw [if_neg hne] at e3 e4
  rw [List.nil_append] at e2 e3
  have happ := spotify_loop_append k id oracle good (bad :: rest) s store []
  rw [spotify_loop_error_head k id oracle bad rest _ _ _ hbad] at happ
  simp only [e1, Bool.false_eq_true, if_false] at happ
  have hout : get_music_artist_data store k id oracle =
      { response := .errorStatus,
        spotifyCalls :=
          (spotify_track_loop k id oracle good s store []).calls +
            (process_track (oracle bad)).2,
        lastfmCalls := 0,
        store := (spotify_track_loop k id oracle good s store []).store,
        writes := (spotify_track_loop k id oracle good s store []).writes } := by
    simp only [get_music_artist_data, hs, hu, hsp, hm, happ]
    simp
  have hstore : (get_music_artist_data store k id oracle).store =
      Store.set store k
        { s with spotify_data :=
                   setField s.spotify_data id
                     (good.filterMap (processedRecord oracle)) } := by
    rw [hout]
    rw [e4, e3]
  obtain ⟨g, gtl, hg⟩ := List.exists_cons_of_ne_nil hne
  obtain ⟨po, n, hpt⟩ := hgood g (by rw [hg]; exact List.mem_cons_self g gtl)
  have hprt : processedRecord oracle g = some po.record := by
    simp [processedRecord, hpt]
  have hrecords : good.filterMap (processedRecord oracle) =
      po.record :: gtl.filterMap (processedRecord oracle) := by
    rw [hg, List.filterMap_cons, hprt]
  have hsession2 : get_session (get_music_artist_data store k id oracle).store
      (some k) =
      { s with spotify_data :=
                 setField s.spotify_data id
                   (good.filterMap (processedRecord oracle)) } := by
    rw [hstore, get_session_set _ _ _ hk]
  have htruthy : truthyLookup
      ({ s with spotify_data :=
                  setField s.spotify_data id
                    (good.filterMap (processedRecord oracle)) } :
          Session).spotify_data id =
      some (good.filterMap (processedRecord oracle)) := by
    simp only [truthyLookup, lookup_setField]
    rw [hrecords]
  have hrerun : get_music_artist_data
      (get_music_artist_data store k id oracle).store k id oracle =
      { response := .ok (good.filterMap (processedRecord oracle)),
        spotifyCalls := 0, lastfmCalls := 0,
        store := (get_music_artist_data store k id oracle).store,
        writes := [] } := by
    rw [hstore]
    simp only [get_music_artist_data, get_session_set _ _ _ hk]
    simp [hu, htruthy]
  refine ⟨by rw [hout], by rw [hstore]; simp [Store.set], by rw [hrerun],
    by rw [hrerun]⟩

/-- Per-track inputs that process successfully. -/
def c7_ok_inp : TrackInputs :=
  { search_track_items := [c5_track], search_artist_items := [c9_artist],
    track_detail := c5_track, top_tracks := [], recommendations := [] }

/-- Per-track inputs that fail at the first catalog search. -/
def c7_err_inp : TrackInputs :=
  { search_track_items := [], search_artist_items := [],
    track_detail := sampleSpotifyTrack, top_tracks := [],
    recommendations := [] }

/-- A track whose processing succeeds. -/
def c7_good : MusicTrack :=
  { raw := { name := "g", artist_text := "ga", album_text := "gb",
             date_uts := 0, nowplaying := false },
    duration := some 1000 }

/-- A track whose processing fails. -/
def c7_bad : MusicTrack :=
  { raw := { name := "b", artist_text := "ba", album_text := "bb",
             date_uts := 0, nowplaying := false },
    duration := some 1000 }

/-- An oracle processing track `g` successfully and failing all others. -/
def c7_oracle : MusicTrack → TrackInputs := fun t =>
  if t.raw.name = "g" then c7_ok_inp else c7_err_inp

/-- An authenticated session whose `{id}_music_data` holds a good track
followed by a failing one. -/
def c7_session : Session :=
  { user_id := some 4, music_data := [("a1", [c7_good, c7_bad])] }

/-- A one-session store for the C7 witness. -/
def c7_store : Store := Store.set emptyStore "s7" c7_session

/-- C7 witness: the run fails at the second track, yet the first track's
record is durably stored under `{id}_spotify_data`, and a second request is
served from that cache with zero Spotify calls. -/
theorem C7_per_track_persistence_witness :
    (get_music_artist_data c7_store "s7" "a1" c7_oracle).response =
      .errorStatus ∧
    (get_music_artist_data c7_store "s7" "a1" c7_oracle).store "s7" =
      some { c7_session with
             spotify_data :=
               setField c7_session.spotify_data "a1"
                 (([c7_good]).filterMap (processedRecord c7_oracle)) } ∧
    (get_music_artist_data
        (get_music_artist_data c7_store "s7" "a1" c7_oracle).store
        "s7" "a1" c7_oracle).response =
      .ok (([c7_good]).filterMap (processedRecord c7_oracle)) ∧
    (get_music_artist_data
        (get_music_artist_data c7_store "s7" "a1" c7_oracle).store
        "s7" "a1" c7_oracle).spotifyCalls = 0 :=
  C7_per_track_persistence c7_store "s7" "a1" c7_oracle [c7_good] c7_bad []
    c7_session 4 rfl rfl rfl rfl
    (by
      intro t ht
      rw [List.mem_singleton] at ht
      subst ht
      exact ⟨_, _, rfl⟩)
    rfl
    (List.cons_ne_nil c7_good [])

/-- The keep-condition of the buffer post-filter (negation of
`duration/1000 + uts < start`). -/
def bufferKeep (start : Int) (m : MusicTrack) : Bool :=
  !(decide (((m.duration.getD 0 : ℚ) / 1000) + (m.raw.date_uts : ℚ) <
    (start : ℚ)))

/-- The session after caching `{id}_music_data`. -/
def musicCachedSession (s : Session) (id : String) (ml : List MusicTrack) :
    Session :=
  { s with music_data := setField s.music_data id ml }

/-- Restatement of `buffer_filter_all_some` through `bufferKeep`. -/
theorem buffer_filter_all_some_keep (start : Int) (l : List MusicTrack)
    (h : ∀ m ∈ l, m.duration ≠ none) :
    buffer_filter start l = .ok (l.filter (bufferKeep start)) := by
  rw [buffer_filter_all_some start l h]
  rfl

/-- C6: with the activity detail cached (start `S`, elapsed `E`) and no cached
music data, the listening-history query covers `[S - 300, S + E]`, and the
cached/returned list is exactly the enriched list minus those tracks with
`duration/1000 + play_timestamp < S`; membership in the final list is
characterised by that bound. -/
theorem C6_listening_window (store : Store) (k id : String) (s : Session)
    (uid : Nat) (d : ActivityDetail) (recent : RecentTracks)
    (oracle : RawTrack → Option TrackInfo) (now : Int)
    (rr : Option RefreshResp) (el : List MusicTrack) (n : Nat)
    (hs : get_session store (some k) = s) (hu : s.user_id = some uid)
    (hd : lookupField s.activity_data id = some d)
    (hm : truthyLookup s.music_data id = none)
    (henr : enrich oracle (drop_nowplaying (normalizeRecent recent)) =
      (Except.ok el, n))
    (hdur : ∀ m ∈ el, m.duration ≠ none) :
    (get_activity_music_data store k id now rr d recent oracle).recentQuery =
      some (d.start_date_unix - 300, d.start_date_unix + d.elapsed_time) ∧
    (get_activity_music_data store k id now rr d recent oracle).response =
      .ok (el.filter (bufferKeep d.start_date_unix))
        d.start_date_unix (d.start_date_unix + d.elapsed_time) ∧
    (∀ m ∈ el,
      ((m.duration.getD 0 : ℚ) / 1000) + (m.raw.date_uts : ℚ) <
          (d.start_date_unix : ℚ) →
      m ∉ el.filter (bufferKeep d.start_date_unix)) ∧
    (∀ m ∈ el,
      ¬(((m.duration.getD 0 : ℚ) / 1000) + (m.raw.date_uts : ℚ) <
          (d.start_date_unix : ℚ)) →
      m ∈ el.filter (bufferKeep d.start_date_unix)) := by
  have hstep : music_detail_step store k id now rr d =
      .ok (d, 0, 0, store, []) := by
    simp only [music_detail_step, hs, hd]
  have hfil := buffer_filter_all_some_keep d.start_date_unix el hdur
  have hrun : get_activity_music_data store k id now rr d recent oracle =
      { response := .ok (el.filter (bufferKeep d.start_date_unix))
          d.start_date_unix (d.start_date_unix + d.elapsed_time),
        detailCalls := 0, recentCalls := 1, infoCalls := n, refreshCalls := 0,
        recentQuery := some (d.start_date_unix - 5 * 60,
          d.start_date_unix + d.elapsed_time),
        store := Store.set store k (musicCachedSession s id
          (el.filter (bufferKeep d.start_date_unix))),
        writes := [(k, musicCachedSession s id
          (el.filter (bufferKeep d.start_date_unix)))] } := by
    simp only [get_activity_music_data, hs, hu, hstep, hm, henr, hfil,
      musicCachedSession]
    simp
  refine ⟨?_, ?_, ?_, ?_⟩
  · rw [hrun]
    norm_num
  · rw [hrun]
  · intro m _ hlt
    simp only [List.mem_filter]
    intro hcontra
    exact absurd hlt (by simpa [bufferKeep] using hcontra.2)
  · intro m hmem hge
    simp only [List.mem_filter]
    exact ⟨hmem, by simpa [bufferKeep] using hge⟩

/-- The cached detail for the C6 witness: start 1000, elapsed 600. -/
def c6_d : ActivityDetail := { start_date_unix := 1000, elapsed_time := 600 }

/-- A scrobble at `window_start - 400`. -/
def c6_t1 : RawTrack :=
  { name := "t1", artist_text := "a", album_text := "b", date_uts := 600,
    nowplaying := false }

/-- A scrobble at `window_start - 200`. -/
def c6_t2 : RawTrack :=
  { name := "t2", artist_text := "a", album_text := "b", date_uts := 800,
    nowplaying := false }

/-- Durations: 60000 ms for `t1`, 300000 ms for every other track. -/
def c6_oracle : RawTrack → Option TrackInfo := fun t =>
  if t.name = "t1" then some { duration := some 60000 }
  else some { duration := some 300000 }

/-- The enriched list produced from the two scrobbles. -/
def c6_el : List MusicTrack :=
  [{ raw := c6_t1, duration := some 60000 },
   { raw := c6_t2, duration := some 300000 }]

/-- An authenticated session with the C6 activity detail cached. -/
def c6_session : Session :=
  { user_id := some 5, activity_data := [("a1", c6_d)] }

/-- A one-session store for the C6 witness. -/
def c6_store : Store := Store.set emptyStore "s6" c6_session

/-- C6 witness: the query window is `[700, 1600]`; the track playing at
`start - 400` with duration 60000 ms (ending at `start - 340`) is dropped
while the track at `start - 200` with duration 300000 ms (ending at
`start + 100`) is kept. -/
theorem C6_listening_window_witness :
    (get_activity_music_data c6_store "s6" "a1" 0 none c6_d
        (RecentTracks.many [c6_t1, c6_t2]) c6_oracle).recentQuery =
      some (700, 1600) ∧
    (get_activity_music_data c6_store "s6" "a1" 0 none c6_d
        (RecentTracks.many [c6_t1, c6_t2]) c6_oracle).response =
      .ok [{ raw := c6_t2, duration := some 300000 }] 1000 1600 ∧
    ({ raw := c6_t1, duration := some 60000 } : MusicTrack) ∉
      c6_el.filter (bufferKeep 1000) ∧
    ({ raw := c6_t2, duration := some 300000 } : MusicTrack) ∈
      c6_el.filter (bufferKeep 1000) := by
  obtain ⟨h1, h2, h3, h4⟩ := C6_listening_window c6_store "s6" "a1"
    c6_session 5 c6_d (RecentTracks.many [c6_t1, c6_t2]) c6_oracle 0 none
    c6_el 2 rfl rfl rfl rfl rfl (by decide)
  simp only [c6_d] at h1 h2 h3 h4
  norm_num at h1
  simp only [c6_d]
  have hfilter : c6_el.filter (bufferKeep 1000) =
      [{ raw := c6_t2, duration := some 300000 }] := by
    simp only [c6_el, List.filter_cons, List.filter_nil, bufferKeep, c6_t1,
      c6_t2]
    norm_num
  refine ⟨h1, ?_, ?_, ?_⟩
  · rw [h2, hfilter]
    norm_num
  · exact h3 { raw := c6_t1, duration := some 60000 }
      (by simp [c6_el]) (by norm_num [c6_t1])
  · exact h4 { raw := c6_t2, duration := some 300000 }
      (by simp [c6_el]) (by norm_num [c6_t2])

/-- A non-empty cached list field is truthy. -/
theorem truthyLookup_of_ne {α : Type} (m : List (String × List α))
    (key : String) (l : List α) (h : lookupField m key = some l)
    (hne : l ≠ []) : truthyLookup m key = some l := by
  cases l with
  | nil => exact absurd rfl hne
  | cons x xs => simp [truthyLookup, h]

/-- Detail endpoint with both `{id}_data` and `{id}_streams` cached: zero
upstream calls for either field and the cached values are returned. -/
theorem c3_detail_cached (store : Store) (k id : String) (s : Session)
    (uid : Nat) (e now : Int) (rr : Option RefreshResp) (pd : ActivityDetail)
    (ps : StreamsData) (d : ActivityDetail) (st0 : StreamsData)
    (hs : get_session store (some k) = s) (hu : s.user_id = some uid)
    (he : s.access_token_expirytime = some e) (hnow : now ≤ e)
    (hd : lookupField s.activity_data id = some d) (hderr : d.errors = false)
    (hst : lookupField s.activity_streams id = some st0) :
    (get_activity_strava_data store k id now rr pd ps).dataCalls = 0 ∧
    (get_activity_strava_data store k id now rr pd ps).streamCalls = 0 ∧
    (get_activity_strava_data store k id now rr pd ps).response =
      .ok d st0 := by
  have hc := check_valid rr hs hu he hnow
  refine ⟨?_, ?_, ?_⟩ <;>
    simp [get_activity_strava_data, hs, hu, hc, cache_activity_data,
      cache_activity_streams, hd, hst, hderr]

/-- The session after the detail endpoint caches both per-activity fields. -/
def detailCachedSession (s : Session) (id : String) (pd : ActivityDetail)
    (ps : StreamsData) : Session :=
  { s with
      activity_data := setField s.activity_data id pd
      activity_streams := setField s.activity_streams id ps }

/-- Detail endpoint with both fields absent: one upstream call per field, the
live values are written back into the session persisted in the store, and a
second request for the same id is served with zero upstream calls. -/
theorem c3_detail_miss (store : Store) (k id : String) (s : Session)
    (uid : Nat) (e now : Int) (rr : Option RefreshResp) (pd : ActivityDetail)
    (ps : StreamsData) (pd' : ActivityDetail) (ps' : StreamsData)
    (hs : get_session store (some k) = s) (hu : s.user_id = some uid)
    (he : s.access_token_expirytime = some e) (hnow : now ≤ e)
    (hd : lookupField s.activity_data id = none)
    (hst : lookupField s.activity_streams id = none)
    (hpderr : pd.errors = false) :
    (get_activity_strava_data store k id now rr pd ps).dataCalls = 1 ∧
    (get_activity_strava_data store k id now rr pd ps).streamCalls = 1 ∧
    lookupField (get_session
      (get_activity_strava_data store k id now rr pd ps).store
      (some k)).activity_data id = some pd ∧
    lookupField (get_session
      (get_activity_strava_data store k id now rr pd ps).store
      (some k)).activity_streams id = some ps ∧
    (get_activity_strava_data
      (get_activity_strava_data store k id now rr pd ps).store
      k id now rr pd' ps').dataCalls = 0 ∧
    (get_activity_strava_data
      (get_activity_strava_data store k id now rr pd ps).store
      k id now rr pd' ps').streamCalls = 0 := by
  obtain ⟨hk, -⟩ := session_of_auth hs hu
  have hc := check_valid rr hs hu he hnow
  have hrun : get_activity_strava_data store k id now rr pd ps =
      { response := .ok pd ps, dataCalls := 1, streamCalls := 1,
        refreshCalls := 0,
        store := Store.set store k (detailCachedSession s id pd ps),
        writes := [(k, detailCachedSession s id pd ps)] } := by
    simp [get_activity_strava_data, hs, hu, hc, cache_activity_data,
      cache_activity_streams, hd, hst, hpderr, detailCachedSession]
  have hs2 : get_session
      (get_activity_strava_data store k id now rr pd ps).store (some k) =
      detailCachedSession s id pd ps := by
    rw [hrun, get_session_set _ _ _ hk]
  have hu2 : (detailCachedSession s id pd ps).user_id = some uid := hu
  have he2 : (detailCachedSession s id pd ps).access_token_expirytime =
      some e := he
  have hc2 := check_valid rr hs2 hu2 he2 hnow
  refine ⟨by rw [hrun], by rw [hrun], ?_, ?_, ?_, ?_⟩
  · rw [hs2]
    exact lookup_setField s.activity_data id pd
  · rw [hs2]
    exact lookup_setField s.activity_streams id ps
  · set st2 := (get_activity_strava_data store k id now rr pd ps).store
      with hst2
    simp [get_activity_strava_data, hs2, hu, hu2, hc2, cache_activity_data,
      detailCachedSession, lookup_setField]
  · set st2 := (get_activity_strava_data store k id now rr pd ps).store
      with hst2
    simp [get_activity_strava_data, hs2, hu, hu2, hc2, cache_activity_data,
      cache_activity_streams, detailCachedSession, lookup_setField]

/-- Music endpoint with `{id}_music_data` cached (non-empty) and `{id}_data`
cached: zero listening-history calls, zero metadata calls, and the cached
list is returned with the derived window times. -/
theorem c3_music_cached (store : Store) (k id : String) (s : Session)
    (uid : Nat) (now : Int) (rr : Option RefreshResp) (pd : ActivityDetail)
    (recent : RecentTracks) (oracle : RawTrack → Option TrackInfo)
    (d : ActivityDetail) (ml : List MusicTrack)
    (hs : get_session store (some k) = s) (hu : s.user_id = some uid)
    (hd : lookupField s.activity_data id = some d)
    (hmus : truthyLookup s.music_data id = some ml) :
    (get_activity_music_data store k id now rr pd recent oracle).recentCalls
      = 0 ∧
    (get_activity_music_data store k id now rr pd recent oracle).infoCalls
      = 0 ∧
    (get_activity_music_data store k id now rr pd recent oracle).response =
      .ok ml d.start_date_unix (d.start_date_unix + d.elapsed_time) := by
  have hstep : music_detail_step store k id now rr pd =
      .ok (d, 0, 0, store, []) := by
    simp only [music_detail_step, hs, hd]
  refine ⟨?_, ?_, ?_⟩ <;>
    simp [get_activity_music_data, hs, hu, hstep, hmus]

/-- Music endpoint with `{id}_music_data` absent and `{id}_data` cached,
where the pipeline succeeds with a non-empty final list: the computed list is
written back to the session persisted in the store, and a second request is
served from that cache with zero listening-history and metadata calls. -/
theorem c3_music_miss (store : Store) (k id : String) (s : Session)
    (uid : Nat) (now : Int) (rr : Option RefreshResp) (pd : ActivityDetail)
    (recent : RecentTracks) (oracle : RawTrack → Option TrackInfo)
    (d : ActivityDetail) (el : List MusicTrack) (n : Nat)
    (pd2 : ActivityDetail) (recent2 : RecentTracks)
    (oracle2 : RawTrack → Option TrackInfo)
    (hs : get_session store (some k) = s) (hu : s.user_id = some uid)
    (hd : lookupField s.activity_data id = some d)
    (hm : truthyLookup s.music_data id = none)
    (henr : enrich oracle (drop_nowplaying (normalizeRecent recent)) =
      (Except.ok el, n))
    (hdur : ∀ m ∈ el, m.duration ≠ none)
    (hne : el.filter (bufferKeep d.start_date_unix) ≠ []) :
    lookupField (get_session
      (get_activity_music_data store k id now rr pd recent oracle).store
      (some k)).music_data id =
      some (el.filter (bufferKeep d.start_date_unix)) ∧
    (get_activity_music_data
      (get_activity_music_data store k id now rr pd recent oracle).store
      k id now rr pd2 recent2 oracle2).recentCalls = 0 ∧
    (get_activity_music_data
      (get_activity_music_data store k id now rr pd recent oracle).store
      k id now rr pd2 recent2 oracle2).infoCalls = 0 := by
  obtain ⟨hk, -⟩ := session_of_auth hs hu
  have hstep : music_detail_step store k id now rr pd =
      .ok (d, 0, 0, store, []) := by
    simp only [music_detail_step, hs, hd]
  have hfil := buffer_filter_all_some_keep d.start_date_unix el hdur
  have hrun : (get_activity_music_data store k id now rr pd recent
      oracle).store =
      Store.set store k (musicCachedSession s id
        (el.filter (bufferKeep d.start_date_unix))) := by
    simp only [get_activity_music_data, hs, hu, hstep, hm, henr, hfil,
      musicCachedSession]
  have hs2 : get_session
      (get_activity_music_data store k id now rr pd recent oracle).store
      (some k) =
      musicCachedSession s id (el.filter (bufferKeep d.start_date_unix)) := by
    rw [hrun, get_session_set _ _ _ hk]
  have hl2 : lookupField (musicCachedSession s id
      (el.filter (bufferKeep d.start_date_unix))).music_data id =
      some (el.filter (bufferKeep d.start_date_unix)) := by
    simp only [musicCachedSession]
    exact lookup_setField s.music_data id _
  have ht2 : truthyLookup (musicCachedSession s id
      (el.filter (bufferKeep d.start_date_unix))).music_data id =
      some (el.filter (bufferKeep d.start_date_unix)) :=
    truthyLookup_of_ne _ _ _ hl2 hne
  have hd2 : lookupField (musicCachedSession s id
      (el.filter (bufferKeep d.start_date_unix))).activity_data id =
      some d := hd
  have hstep2 : music_detail_step
      (get_activity_music_data store k id now rr pd recent oracle).store
      k id now rr pd2 =
      .ok (d, 0, 0,
        (get_activity_music_data store k id now rr pd recent oracle).store,
        []) := by
    simp only [music_detail_step, hs2, hd2]
  have ht2x : truthyLookup (setField s.music_data id
      (el.filter (bufferKeep d.start_date_unix))) id =
      some (el.filter (bufferKeep d.start_date_unix)) := ht2
  refine ⟨by rw [hs2]; exact hl2, ?_, ?_⟩ <;>
  · set st2 := (get_activity_music_data store k id now rr pd recent
      oracle).store with hst2
    simp [get_activity_music_data, hs2, hu, hstep2, ht2x, musicCachedSession]

/-- Cross-reference endpoint with `{id}_spotify_data` cached (non-empty):
zero Spotify calls and the cached list is returned. -/
theorem c3_spotify_cached (store : Store) (k id : String) (s : Session)
    (uid : Nat) (oracle : MusicTrack → TrackInputs) (l : List SpotifyRecord)
    (hs : get_session store (some k) = s) (hu : s.user_id = some uid)
    (hsp : truthyLookup s.spotify_data id = some l) :
    (get_music_artist_data store k id oracle).spotifyCalls = 0 ∧
    (get_music_artist_data store k id oracle).response = .ok l := by
  refine ⟨?_, ?_⟩ <;> simp [get_music_artist_data, hs, hu, hsp]

/-- Cross-reference endpoint with `{id}_spotify_data` absent and every track
processing successfully: the computed records are written back under
`{id}_spotify_data` in the store, and a second request is served from that
cache with zero Spotify calls. -/
theorem c3_spotify_miss (store : Store) (k id : String) (s : Session)
    (uid : Nat) (oracle oracle2 : MusicTrack → TrackInputs)
    (ml : List MusicTrack)
    (hs : get_session store (some k) = s) (hu : s.user_id = some uid)
    (hsp : truthyLookup s.spotify_data id = none)
    (hm : lookupField s.music_data id = some ml)
    (hallok : ∀ t ∈ ml, ∃ po n, process_track (oracle t) = (.ok po, n))
    (hmlne : ml ≠ []) :
    (get_music_artist_data store k id oracle).response =
      .ok (ml.filterMap (processedRecord oracle)) ∧
    lookupField (get_session (get_music_artist_data store k id oracle).store
      (some k)).spotify_data id =
      some (ml.filterMap (processedRecord oracle)) ∧
    (get_music_artist_data (get_music_artist_data store k id oracle).store
      k id oracle2).spotifyCalls = 0 ∧
    (get_music_artist_data (get_music_artist_data store k id oracle).store
      k id oracle2).response =
      .ok (ml.filterMap (processedRecord oracle)) := by
  obtain ⟨hk, -⟩ := session_of_auth hs hu
  obtain ⟨e1, e2, e3, e4⟩ := spotify_loop_all_ok k id oracle ml s store []
    hallok
  rw [if_neg hmlne] at e3 e4
  rw [List.nil_append] at e2 e3
  obtain ⟨g, gtl, hg⟩ := List.exists_cons_of_ne_nil hmlne
  obtain ⟨po, n, hpt⟩ := hallok g (by rw [hg]; exact List.mem_cons_self g gtl)
  have hprt : processedRecord oracle g = some po.record := by
    simp [processedRecord, hpt]
  have hrecords : ml.filterMap (processedRecord oracle) =
      po.record :: gtl.filterMap (processedRecord oracle) := by
    rw [hg, List.filterMap_cons, hprt]
  have hrun : get_music_artist_data store k id oracle =
      { response := .ok (ml.filterMap (processedRecord oracle)),
        spotifyCalls := (spotify_track_loop k id oracle ml s store []).calls,
        lastfmCalls := 0,
        store := (spotify_track_loop k id oracle ml s store []).store,
        writes := (spotify_track_loop k id oracle ml s store []).writes } := by
    simp only [get_music_artist_data, hs, hu, hsp, hm, e1, Bool.false_eq_true,
      if_false, e2]
  have hstore : (get_music_artist_data store k id oracle).store =
      Store.set store k
        { s with spotify_data :=
                   setField s.spotify_data id
                     (ml.filterMap (processedRecord oracle)) } := by
    rw [hrun]
    rw [e4, e3]
  have hs2 : get_session (get_music_artist_data store k id oracle).store
      (some k) =
      { s with spotify_data :=
                 setField s.spotify_data id
                   (ml.filterMap (processedRecord oracle)) } := by
    rw [hstore, get_session_set _ _ _ hk]
  have ht2 : truthyLookup (setField s.spotify_data id
      (ml.filterMap (processedRecord oracle))) id =
      some (ml.filterMap (processedRecord oracle)) := by
    apply truthyLookup_of_ne _ _ _ (lookup_setField s.spotify_data id _)
    rw [hrecords]
    exact List.cons_ne_nil _ _
  refine ⟨by rw [hrun], ?_, ?_, ?_⟩
  · rw [hs2]
    exact lookup_setField s.spotify_data id _
  · set st2 := (get_music_artist_data store k id oracle).store with hst2
    simp [get_music_artist_data, hs2, hu, ht2]
  · set st2 := (get_music_artist_data store k id oracle).store with hst2
    simp [get_music_artist_data, hs2, hu, ht2]

/-- The amendment's exception: with `{id}_data` absent, the music endpoint
fetches the detail live (one round-trip) but does not write it back — the
stored session still lacks `{id}_data` after the request. -/
theorem c3_music_detail_not_written (store : Store) (k id : String)
    (s : Session) (uid : Nat) (e now : Int) (rr : Option RefreshResp)
    (pd : ActivityDetail) (recent : RecentTracks)
    (oracle : RawTrack → Option TrackInfo) (el : List MusicTrack) (n : Nat)
    (hs : get_session store (some k) = s) (hu : s.user_id = some uid)
    (he : s.access_token_expirytime = some e) (hnow : now ≤ e)
    (hd : lookupField s.activity_data id = none)
    (hm : truthyLookup s.music_data id = none)
    (henr : enrich oracle (drop_nowplaying (normalizeRecent recent)) =
      (Except.ok el, n))
    (hdur : ∀ m ∈ el, m.duration ≠ none) :
    (get_activity_music_data store k id now rr pd recent oracle).detailCalls
      = 1 ∧
    lookupField (get_session
      (get_activity_music_data store k id now rr pd recent oracle).store
      (some k)).activity_data id = none := by
  obtain ⟨hk, -⟩ := session_of_auth hs hu
  have hc := check_valid rr hs hu he hnow
  have hstep : music_detail_step store k id now rr pd =
      .ok (pd, 1, 0, store, []) := by
    simp only [music_detail_step, hs, hd, hc]
  have hfil := buffer_filter_all_some_keep pd.start_date_unix el hdur
  have hrun : get_activity_music_data store k id now rr pd recent oracle =
      { response := .ok (el.filter (bufferKeep pd.start_date_unix))
          pd.start_date_unix (pd.start_date_unix + pd.elapsed_time),
        detailCalls := 1, recentCalls := 1, infoCalls := n, refreshCalls := 0,
        recentQuery := some (pd.start_date_unix - 5 * 60,
          pd.start_date_unix + pd.elapsed_time),
        store := Store.set store k (musicCachedSession s id
          (el.filter (bufferKeep pd.start_date_unix))),
        writes := [(k, musicCachedSession s id
          (el.filter (bufferKeep pd.start_date_unix)))] } := by
    simp only [get_activity_music_data, hs, hu, hstep, hm, henr, hfil,
      musicCachedSession]
    simp
  refine ⟨by rw [hrun], ?_⟩
  rw [hrun]
  dsimp only
  rw [get_session_set _ _ _ hk]
  simpa [musicCachedSession] using hd

/-- C3 (amended): per-activity fields behave as idempotent caches — a cached
(truthy) field is served with zero upstream calls for that field, and a field
fetched live by its owning endpoint is written back and serves the next
request from cache — with one exception: the music-correlation endpoint's
live fetch of `{id}_data` is never written back, so it re-fetches the detail
on every request until the detail endpoint caches it. -/
theorem C3_idempotent_caches :
    (∀ (store : Store) (k id : String) (s : Session) (uid : Nat)
      (e now : Int) (rr : Option RefreshResp) (pd : ActivityDetail)
      (ps : StreamsData) (d : ActivityDetail) (st0 : StreamsData),
      get_session store (some k) = s → s.user_id = some uid →
      s.access_token_expirytime = some e → now ≤ e →
      lookupField s.activity_data id = some d → d.errors = false →
      lookupField s.activity_streams id = some st0 →
      (get_activity_strava_data store k id now rr pd ps).dataCalls = 0 ∧
      (get_activity_strava_data store k id now rr pd ps).streamCalls = 0 ∧
      (get_activity_strava_data store k id now rr pd ps).response =
        .ok d st0) ∧
    (∀ (store : Store) (k id : String) (s : Session) (uid : Nat)
      (e now : Int) (rr : Option RefreshResp) (pd : ActivityDetail)
      (ps : StreamsData) (pd' : ActivityDetail) (ps' : StreamsData),
      get_session store (some k) = s → s.user_id = some uid →
      s.access_token_expirytime = some e → now ≤ e →
      lookupField s.activity_data id = none →
      lookupField s.activity_streams id = none →
      pd.errors = false →
      (get_activity_strava_data store k id now rr pd ps).dataCalls = 1 ∧
      (get_activity_strava_data store k id now rr pd ps).streamCalls = 1 ∧
      lookupField (get_session
        (get_activity_strava_data store k id now rr pd ps).store
        (some k)).activity_data id = some pd ∧
      lookupField (get_session
        (get_activity_strava_data store k id now rr pd ps).store
        (some k)).activity_streams id = some ps ∧
      (get_activity_strava_data
        (get_activity_strava_data store k id now rr pd ps).store
        k id now rr pd' ps').dataCalls = 0 ∧
      (get_activity_strava_data
        (get_activity_strava_data store k id now rr pd ps).store
        k id now rr pd' ps').streamCalls = 0) ∧
    (∀ (store : Store) (k id : String) (s : Session) (uid : Nat) (now : Int)
      (rr : Option RefreshResp) (pd : ActivityDetail) (recent : RecentTracks)
      (oracle : RawTrack → Option TrackInfo) (d : ActivityDetail)
      (ml : List MusicTrack),
      get_session store (some k) = s → s.user_id = some uid →
      lookupField s.activity_data id = some d →
      truthyLookup s.music_data id = some ml →
      (get_activity_music_data store k id now rr pd recent oracle).recentCalls
        = 0 ∧
      (get_activity_music_data store k id now rr pd recent oracle).infoCalls
        = 0 ∧
      (get_activity_music_data store k id now rr pd recent oracle).response =
        .ok ml d.start_date_unix (d.start_date_unix + d.elapsed_time)) ∧
    (∀ (store : Store) (k id : String) (s : Session) (uid : Nat) (now : Int)
      (rr : Option RefreshResp) (pd : ActivityDetail) (recent : RecentTracks)
      (oracle : RawTrack → Option TrackInfo) (d : ActivityDetail)
      (el : List MusicTrack) (n : Nat) (pd2 : ActivityDetail)
      (recent2 : RecentTracks) (oracle2 : RawTrack → Option TrackInfo),
      get_session store (some k) = s → s.user_id = some uid →
      lookupField s.activity_data id = some d →
      truthyLookup s.music_data id = none →
      enrich oracle (drop_nowplaying (normalizeRecent recent)) =
        (Except.ok el, n) →
      (∀ m ∈ el, m.duration ≠ none) →
      el.filter (bufferKeep d.start_date_unix) ≠ [] →
      lookupField (get_session
        (get_activity_music_data store k id now rr pd recent oracle).store
        (some k)).music_data id =
        some (el.filter (bufferKeep d.start_date_unix)) ∧
      (get_activity_music_data
        (get_activity_music_data store k id now rr pd recent oracle).store
        k id now rr pd2 recent2 oracle2).recentCalls = 0 ∧
      (get_activity_music_data
        (get_activity_music_data store k id now rr pd recent oracle).store
        k id now rr pd2 recent2 oracle2).infoCalls = 0) ∧
    (∀ (store : Store) (k id : String) (s : Session) (uid : Nat)
      (oracle : MusicTrack → TrackInputs) (l : List SpotifyRecord),
      get_session store (some k) = s → s.user_id = some uid →
      truthyLookup s.spotify_data id = some l →
      (get_music_artist_data store k id oracle).spotifyCalls = 0 ∧
      (get_music_artist_data store k id oracle).response = .ok l) ∧
    (∀ (store : Store) (k id : String) (s : Session) (uid : Nat)
      (oracle oracle2 : MusicTrack → TrackInputs) (ml : List MusicTrack),
      get_session store (some k) = s → s.user_id = some uid →
      truthyLookup s.spotify_data id = none →
      lookupField s.music_data id = some ml →
      (∀ t ∈ ml, ∃ po n, process_track (oracle t) = (.ok po, n)) →
      ml ≠ [] →
      (get_music_artist_data store k id oracle).response =
        .ok (ml.filterMap (processedRecord oracle)) ∧
      lookupField (get_session
        (get_music_artist_data store k id oracle).store
        (some k)).spotify_data id =
        some (ml.filterMap (processedRecord oracle)) ∧
      (get_music_artist_data (get_music_artist_data store k id oracle).store
        k id oracle2).spotifyCalls = 0 ∧
      (get_music_artist_data (get_music_artist_data store k id oracle).store
        k id oracle2).response =
        .ok (ml.filterMap (processedRecord oracle))) ∧
    (∀ (store : Store) (k id : String) (s : Session) (uid : Nat)
      (e now : Int) (rr : Option RefreshResp) (pd : ActivityDetail)
      (recent : RecentTracks) (oracle : RawTrack → Option TrackInfo)
      (el : List MusicTrack) (n : Nat),
      get_session store (some k) = s → s.user_id = some uid →
      s.access_token_expirytime = some e → now ≤ e →
      lookupField s.activity_data id = none →
      truthyLookup s.music_data id = none →
      enrich oracle (drop_nowplaying (normalizeRecent recent)) =
        (Except.ok el, n) →
      (∀ m ∈ el, m.duration ≠ none) →
      (get_activity_music_data store k id now rr pd recent oracle).detailCalls
        = 1 ∧
      lookupField (get_session
        (get_activity_music_data store k id now rr pd recent oracle).store
        (some k)).activity_data id = none) :=
  ⟨c3_detail_cached, c3_detail_miss, c3_music_cached, c3_music_miss,
    c3_spotify_cached, c3_spotify_miss, c3_music_detail_not_written⟩

/-- An authenticated session with a valid token and no cached per-activity
fields, for the C3 counterexample. -/
def c3x_session : Session :=
  { user_id := some 6, access_token := some "t", refresh_token := some "r",
    access_token_expirytime := some 1000 }

/-- A one-session store for the C3 counterexample. -/
def c3x_store : Store := Store.set emptyStore "s3" c3x_session

/-- A metadata oracle answering every track with a 1000 ms duration. -/
def c3x_oracle : RawTrack → Option TrackInfo := fun _ =>
  some { duration := some 1000 }

/-- The first music-correlation run of the C3 counterexample. -/
def c3x_run1 : MusicOut :=
  get_activity_music_data c3x_store "s3" "a1" 0 none c4_pd
    (RecentTracks.many []) c3x_oracle

/-- C3 counterexample: the music-correlation endpoint fetches an uncached
`{id}_data` live but does not write it back — after the request the stored
session still has no `{id}_data`, and a second request fetches the detail
again (two upstream detail calls across two requests, not one). -/
theorem C3_music_detail_refetch_counterexample :
    c3x_run1.detailCalls = 1 ∧
    lookupField (get_session c3x_run1.store (some "s3")).activity_data "a1" =
      none ∧
    (get_activity_music_data c3x_run1.store "s3" "a1" 0 none c4_pd
      (RecentTracks.many []) c3x_oracle).detailCalls = 1 := by
  refine ⟨rfl, rfl, rfl⟩

/-- Session with both detail and streams cached (C3 witness, part 1). -/
def c3w1_session : Session :=
  { user_id := some 8, access_token_expirytime := some 10,
    activity_data := [("a1", c4_pd)], activity_streams := [("a1", c4_ps)] }

/-- Store for C3 witness part 1. -/
def c3w1_store : Store := Store.set emptyStore "k1" c3w1_session

/-- Session with nothing cached (C3 witness, part 2). -/
def c3w2_session : Session :=
  { user_id := some 9, access_token_expirytime := some 10 }

/-- Store for C3 witness part 2. -/
def c3w2_store : Store := Store.set emptyStore "k2" c3w2_session

/-- Session with detail and a non-empty music list cached (part 3). -/
def c3w3_session : Session :=
  { user_id := some 10, activity_data := [("a1", c4_pd)],
    music_data := [("a1", [c7_good])] }

/-- Store for C3 witness part 3. -/
def c3w3_store : Store := Store.set emptyStore "k3" c3w3_session

/-- Session with detail cached and no music data (part 4). -/
def c3w4_session : Session :=
  { user_id := some 11, activity_data := [("a1", c6_d)] }

/-- Store for C3 witness part 4. -/
def c3w4_store : Store := Store.set emptyStore "k4" c3w4_session

/-- The enriched single-track list of part 4. -/
def c3w4_el : List MusicTrack := [{ raw := c6_t2, duration := some 300000 }]

/-- A cached cross-reference record (part 5). -/
def c3w5_rec : SpotifyRecord :=
  { current_track :=
      { name := "x",
        artist := { name := "a", image := "u", top_tracks := [] },
        preview := none, genres := [] },
    recommended_tracks := [] }

/-- Session with a non-empty cached `{id}_spotify_data` (part 5). -/
def c3w5_session : Session :=
  { user_id := some 12, spotify_data := [("a1", [c3w5_rec])] }

/-- Store for C3 witness part 5. -/
def c3w5_store : Store := Store.set emptyStore "k5" c3w5_session

/-- Session with a one-track music list and no spotify data (part 6). -/
def c3w6_session : Session :=
  { user_id := some 13, music_data := [("a1", [c7_good])] }

/-- Store for C3 witness part 6. -/
def c3w6_store : Store := Store.set emptyStore "k6" c3w6_session

/-- C3 witness: concrete runs of all seven cache scenarios. -/
theorem C3_idempotent_caches_witness :
    ((get_activity_strava_data c3w1_store "k1" "a1" 0 none c4_pd
        c4_ps).dataCalls = 0 ∧
      (get_activity_strava_data c3w1_store "k1" "a1" 0 none c4_pd
        c4_ps).streamCalls = 0 ∧
      (get_activity_strava_data c3w1_store "k1" "a1" 0 none c4_pd
        c4_ps).response = .ok c4_pd c4_ps) ∧
    ((get_activity_strava_data c3w2_store "k2" "a1" 0 none c4_pd
        c4_ps).dataCalls = 1 ∧
      (get_activity_strava_data c3w2_store "k2" "a1" 0 none c4_pd
        c4_ps).streamCalls = 1 ∧
      lookupField (get_session
        (get_activity_strava_data c3w2_store "k2" "a1" 0 none c4_pd
          c4_ps).store (some "k2")).activity_data "a1" = some c4_pd ∧
      lookupField (get_session
        (get_activity_strava_data c3w2_store "k2" "a1" 0 none c4_pd
          c4_ps).store (some "k2")).activity_streams "a1" = some c4_ps ∧
      (get_activity_strava_data
        (get_activity_strava_data c3w2_store "k2" "a1" 0 none c4_pd
          c4_ps).store "k2" "a1" 0 none c4_pd c4_ps).dataCalls = 0 ∧
      (get_activity_strava_data
        (get_activity_strava_data c3w2_store "k2" "a1" 0 none c4_pd
          c4_ps).store "k2" "a1" 0 none c4_pd c4_ps).streamCalls = 0) ∧
    ((get_activity_music_data c3w3_store "k3" "a1" 0 none c4_pd
        (RecentTracks.many []) c3x_oracle).recentCalls = 0 ∧
      (get_activity_music_data c3w3_store "k3" "a1" 0 none c4_pd
        (RecentTracks.many []) c3x_oracle).infoCalls = 0 ∧
      (get_activity_music_data c3w3_store "k3" "a1" 0 none c4_pd
        (RecentTracks.many []) c3x_oracle).response =
        .ok [c7_good] c4_pd.start_date_unix
          (c4_pd.start_date_unix + c4_pd.elapsed_time)) ∧
    (lookupField (get_session
        (get_activity_music_data c3w4_store "k4" "a1" 0 none c6_d
          (RecentTracks.many [c6_t2]) c6_oracle).store
        (some "k4")).music_data "a1" =
        some (c3w4_el.filter (bufferKeep c6_d.start_date_unix)) ∧
      (get_activity_music_data
        (get_activity_music_data c3w4_store "k4" "a1" 0 none c6_d
          (RecentTracks.many [c6_t2]) c6_oracle).store
        "k4" "a1" 0 none c6_d (RecentTracks.many [c6_t2])
        c6_oracle).recentCalls = 0 ∧
      (get_activity_music_data
        (get_activity_music_data c3w4_store "k4" "a1" 0 none c6_d
          (RecentTracks.many [c6_t2]) c6_oracle).store
        "k4" "a1" 0 none c6_d (RecentTracks.many [c6_t2])
        c6_oracle).infoCalls = 0) ∧
    ((get_music_artist_data c3w5_store "k5" "a1" c7_oracle).spotifyCalls = 0 ∧
      (get_music_artist_data c3w5_store "k5" "a1" c7_oracle).response =
        .ok [c3w5_rec]) ∧
    ((get_music_artist_data c3w6_store "k6" "a1" c7_oracle).response =
        .ok (([c7_good]).filterMap (processedRecord c7_oracle)) ∧
      lookupField (get_session
        (get_music_artist_data c3w6_store "k6" "a1" c7_oracle).store
        (some "k6")).spotify_data "a1" =
        some (([c7_good]).filterMap (processedRecord c7_oracle)) ∧
      (get_music_artist_data
        (get_music_artist_data c3w6_store "k6" "a1" c7_oracle).store
        "k6" "a1" c7_oracle).spotifyCalls = 0 ∧
      (get_music_artist_data
        (get_music_artist_data c3w6_store "k6" "a1" c7_oracle).store
        "k6" "a1" c7_oracle).response =
        .ok (([c7_good]).filterMap (processedRecord c7_oracle))) ∧
    ((get_activity_music_data c3x_store "s3" "a1" 0 none c4_pd
        (RecentTracks.many []) c3x_oracle).detailCalls = 1 ∧
      lookupField (get_session
        (get_activity_music_data c3x_store "s3" "a1" 0 none c4_pd
          (RecentTracks.many []) c3x_oracle).store
        (some "s3")).activity_data "a1" = none) := by
  refine ⟨?_, ?_, ?_, ?_, ?_, ?_, ?_⟩
  · exact C3_idempotent_caches.1 c3w1_store "k1" "a1" c3w1_session 8 10 0
      none c4_pd c4_ps c4_pd c4_ps rfl rfl rfl (by decide) rfl rfl rfl
  · exact C3_idempotent_caches.2.1 c3w2_store "k2" "a1" c3w2_session 9 10 0
      none c4_pd c4_ps c4_pd c4_ps rfl rfl rfl (by decide) rfl rfl rfl
  · exact C3_idempotent_caches.2.2.1 c3w3_store "k3" "a1" c3w3_session 10 0
      none c4_pd (RecentTracks.many []) c3x_oracle c4_pd [c7_good]
      rfl rfl rfl rfl
  · exact C3_idempotent_caches.2.2.2.1 c3w4_store "k4" "a1" c3w4_session 11 0
      none c6_d (RecentTracks.many [c6_t2]) c6_oracle c6_d c3w4_el 1 c6_d
      (RecentTracks.many [c6_t2]) c6_oracle rfl rfl rfl rfl rfl (by decide)
      (by
        have hfe : c3w4_el.filter (bufferKeep c6_d.start_date_unix) =
            [{ raw := c6_t2, duration := some 300000 }] := by
          simp only [c3w4_el, c6_d, List.filter_cons, List.filter_nil,
            bufferKeep, c6_t2]
          norm_num
        rw [hfe]
        exact List.cons_ne_nil _ _)
  · exact C3_idempotent_caches.2.2.2.2.1 c3w5_store "k5" "a1" c3w5_session 12
      c7_oracle [c3w5_rec] rfl rfl rfl
  · exact C3_idempotent_caches.2.2.2.2.2.1 c3w6_store "k6" "a1" c3w6_session
      13 c7_oracle c7_oracle [c7_good] rfl rfl rfl rfl
      (by
        intro t ht
        rw [List.mem_singleton] at ht
        subst ht
        exact ⟨_, _, rfl⟩)
      (List.cons_ne_nil _ _)
  · exact C3_idempotent_caches.2.2.2.2.2.2 c3x_store "s3" "a1" c3x_session 6
      1000 0 none c4_pd (RecentTracks.many []) c3x_oracle [] 0 rfl rfl rfl
      (by decide) rfl rfl rfl (by decide)
